import Mathlib

/-!
Verification of the cardplay synth-asset ingestion and classification pipeline.

This file shallowly embeds, in Lean 4, the parts of the repository's Python
sources that the checked claims are about:

* `src/scripts/parse-synth-assets.py` — the Surge `.wt` / `.wav` wavetable
  parsers, the FXP preset parser with its embedded-XML extraction, and the
  SQLite `INSERT OR REPLACE` persistence discipline;
* `src/scripts/synth-asset-downloader.py` — the header-level `.wt` parser,
  the byte-buffer variants of the Surge parsers, and the Vital (gzipped-JSON)
  preset and wavetable parsers;
* `src/scripts/reorganize-synth-db.py` — the keyword/heuristic preset
  classifier with its category, subcategory and keyword tables.

Modelling conventions:

* Byte buffers are `List Nat`, each element a byte value 0..255 as produced
  by Python's `bytes` indexing.  Python slices clamp at the end of the
  buffer, which `List.drop`/`List.take` reproduce exactly.
* `struct.unpack` demands an exactly-sized buffer and raises otherwise; reads
  that the Python code does not length-guard are therefore embedded in
  `Option`, with `none` standing for the raised-and-caught exception path.
* Python floats are embedded as `ℚ`.  Every numeric comparison a claim
  depends on involves short decimal literals whose ordering agrees between
  exact rationals and IEEE doubles, and int16/int24 samples scaled by powers
  of two are exactly representable in float32, so this embedding is
  observation-equivalent for the claims below.
* `hashlib.sha256(...).hexdigest()` is embedded by a full executable SHA-256
  over byte lists (`sha256hex`), so content hashes and truncated logical ids
  are the genuine values the scripts store.
-/

/-! ## Byte-level utilities -/

/-- `data[i]` as Python's `bytes` indexing inside a length-checked region:
returns 0 out of range (only used where the source has already
established the bound). -/
def byteD (data : List Nat) (i : Nat) : Nat := data.getD i 0

/-- Python slice `data[start:start+len]`: clamps at the end of the buffer. -/
def pySlice (data : List Nat) (start len : Nat) : List Nat :=
  (data.drop start).take len

/-- `struct.unpack('<I', data[i:i+4])[0]` in a context where the source has
already checked that four bytes are available. -/
def le32 (data : List Nat) (i : Nat) : Nat :=
  byteD data i + 256 * byteD data (i + 1) + 65536 * byteD data (i + 2) +
    16777216 * byteD data (i + 3)

/-- `struct.unpack('<I', data[i:i+4])[0]` with the exact-length requirement of
`struct.unpack`: `none` models the raised `struct.error`. -/
def le32? (data : List Nat) (i : Nat) : Option Nat :=
  if i + 4 ≤ data.length then some (le32 data i) else none

/-- `struct.unpack('<H', data[i:i+2])[0]` with the exact-length requirement. -/
def le16? (data : List Nat) (i : Nat) : Option Nat :=
  if i + 2 ≤ data.length then some (byteD data i + 256 * byteD data (i + 1))
  else none

/-- `struct.unpack('>I', data[i:i+4])[0]` (big-endian), length-checked. -/
def be32? (data : List Nat) (i : Nat) : Option Nat :=
  if i + 4 ≤ data.length then
    some (16777216 * byteD data i + 65536 * byteD data (i + 1) +
      256 * byteD data (i + 2) + byteD data (i + 3))
  else none

/-- Little-endian signed 16-bit value from two bytes
(`struct.unpack('<h', bytes([lo, hi]))[0]`). -/
def i16_of (lo hi : Nat) : Int :=
  let v : Nat := lo + 256 * hi
  if 32768 ≤ v then (v : Int) - 65536 else (v : Int)

/-- `struct.unpack(f'<{n}h', buf)` on an exactly `2*n`-byte buffer, as the
list of decoded signed 16-bit integers. -/
def unpack_i16le : List Nat → List Int
  | lo :: hi :: rest => i16_of lo hi :: unpack_i16le rest
  | _ => []

/-- Little-endian signed 32-bit value from four bytes. -/
def i32_of (b0 b1 b2 b3 : Nat) : Int :=
  let v : Nat := b0 + 256 * b1 + 65536 * b2 + 16777216 * b3
  if 2147483648 ≤ v then (v : Int) - 4294967296 else (v : Int)

/-- IEEE-754 binary32 value of four little-endian bytes, as an exact rational.
NaN and infinities (exponent 255) have no rational image and are mapped to 0;
no claim in this development touches such a sample. -/
def f32_of (b0 b1 b2 b3 : Nat) : ℚ :=
  let bits : Nat := b0 + 256 * b1 + 65536 * b2 + 16777216 * b3
  let sgn : Nat := bits / 2147483648
  let ex : Nat := (bits / 8388608) % 256
  let mant : Nat := bits % 8388608
  let mag : ℚ :=
    if ex = 255 then 0
    else if ex = 0 then (mant : ℚ) * (2 : ℚ) ^ (-(149 : ℤ))
    else ((8388608 + mant : Nat) : ℚ) * (2 : ℚ) ^ ((ex : ℤ) - 150)
  if sgn = 1 then -mag else mag

/-- `struct.unpack(f'<{n}f', buf)` on an exactly `4*n`-byte buffer, as exact
rationals. -/
def unpack_f32le : List Nat → List ℚ
  | b0 :: b1 :: b2 :: b3 :: rest => f32_of b0 b1 b2 b3 :: unpack_f32le rest
  | _ => []

/-! ## SHA-256 (`hashlib.sha256(...).hexdigest()`) -/

/-- Truncate to 32 bits. -/
def m32 (x : Nat) : Nat := x % 4294967296

/-- 32-bit right rotation. -/
def rotr32 (x n : Nat) : Nat := m32 ((x >>> n) ||| (x <<< (32 - n)))

/-- SHA-256 round constants. -/
def shaK : List Nat :=
  [1116352408, 1899447441, 3049323471, 3921009573,
   961987163, 1508970993, 2453635748, 2870763221,
   3624381080, 310598401, 607225278, 1426881987,
   1925078388, 2162078206, 2614888103, 3248222580,
   3835390401, 4022224774, 264347078, 604807628,
   770255983, 1249150122, 1555081692, 1996064986,
   2554220882, 2821834349, 2952996808, 3210313671,
   3336571891, 3584528711, 113926993, 338241895,
   666307205, 773529912, 1294757372, 1396182291,
   1695183700, 1986661051, 2177026350, 2456956037,
   2730485921, 2820302411, 3259730800, 3345764771,
   3516065817, 3600352804, 4094571909, 275423344,
   430227734, 506948616, 659060556, 883997877,
   958139571, 1322822218, 1537002063, 1747873779,
   1955562222, 2024104815, 2227730452, 2361852424,
   2428436474, 2756734187, 3204031479, 3329325298]

/-- SHA-256 initial hash state. -/
def shaH0 : List Nat :=
  [1779033703, 3144134277, 1013904242, 2773480762,
   1359893119, 2600822924, 528734635, 1541459225]

/-- Pad a byte message per SHA-256 (append 0x80, zeros, 64-bit bit length). -/
def shaPad (msg : List Nat) : List Nat :=
  let L := msg.length
  let z := (64 + 56 - (L + 1) % 64) % 64
  let bits := 8 * L
  msg ++ [0x80] ++ List.replicate z 0 ++
    [(bits >>> 56) % 256, (bits >>> 48) % 256, (bits >>> 40) % 256,
     (bits >>> 32) % 256, (bits >>> 24) % 256, (bits >>> 16) % 256,
     (bits >>> 8) % 256, bits % 256]

/-- Split a list into chunks of 64 elements; the fuel (always instantiated
with the list length, which suffices since every step drops 64 elements)
keeps the recursion structural. -/
def chunksGo : Nat → List Nat → List (List Nat)
  | _, [] => []
  | 0, _ => []
  | fuel + 1, a :: rest =>
    (a :: rest).take 64 :: chunksGo fuel ((a :: rest).drop 64)

/-- Split a list into chunks of 64 elements (the padded message is always a
multiple of 64 bytes long). -/
def chunks64 (l : List Nat) : List (List Nat) := chunksGo l.length l

/-- Big-endian 32-bit words of a 64-byte block. -/
def blockWords : List Nat → List Nat
  | b0 :: b1 :: b2 :: b3 :: rest =>
    (16777216 * b0 + 65536 * b1 + 256 * b2 + b3) :: blockWords rest
  | _ => []

/-- Extend 16 message words to the 64-word schedule. -/
def shaSchedule (w : List Nat) (rounds : Nat) : List Nat :=
  match rounds with
  | 0 => w
  | r + 1 =>
    let n := w.length
    let w2 := w.getD (n - 2) 0
    let w7 := w.getD (n - 7) 0
    let w15 := w.getD (n - 15) 0
    let w16 := w.getD (n - 16) 0
    let s0 := m32 ((rotr32 w15 7) ^^^ (rotr32 w15 18) ^^^ (w15 >>> 3))
    let s1 := m32 ((rotr32 w2 17) ^^^ (rotr32 w2 19) ^^^ (w2 >>> 10))
    shaSchedule (w ++ [m32 (w16 + s0 + w7 + s1)]) r

/-- One SHA-256 compression round on the 8-register state. -/
def shaRound (st : List Nat) (kw : Nat) : List Nat :=
  let a := st.getD 0 0
  let b := st.getD 1 0
  let c := st.getD 2 0
  let d := st.getD 3 0
  let e := st.getD 4 0
  let f := st.getD 5 0
  let g := st.getD 6 0
  let h := st.getD 7 0
  let S1 := m32 ((rotr32 e 6) ^^^ (rotr32 e 11) ^^^ (rotr32 e 25))
  let ch := m32 ((e &&& f) ^^^ ((4294967295 - e) &&& g))
  let t1 := m32 (h + S1 + ch + kw)
  let S0 := m32 ((rotr32 a 2) ^^^ (rotr32 a 13) ^^^ (rotr32 a 22))
  let mj := m32 ((a &&& b) ^^^ (a &&& c) ^^^ (b &&& c))
  let t2 := m32 (S0 + mj)
  [m32 (t1 + t2), a, b, c, m32 (d + t1), e, f, g]

/-- Compress one 64-byte block into the running state. -/
def shaBlock (st : List Nat) (block : List Nat) : List Nat :=
  let w := shaSchedule (blockWords block) 48
  let out := (List.zipWith (fun k wi => m32 (k + wi)) shaK w).foldl shaRound st
  List.zipWith (fun a b => m32 (a + b)) st out

/-- SHA-256 digest of a byte message, as the list of 32 digest bytes. -/
def sha256bytes (msg : List Nat) : List Nat :=
  let final := (chunks64 (shaPad msg)).foldl shaBlock shaH0
  final.flatMap (fun w => [(w >>> 24) % 256, (w >>> 16) % 256, (w >>> 8) % 256, w % 256])

/-- Lowercase hex digit of a value 0..15. -/
def hexDigit (n : Nat) : Char :=
  if n < 10 then Char.ofNat (48 + n) else Char.ofNat (87 + n)

/-- Lowercase hex string of a byte list. -/
def hexOfBytes (bs : List Nat) : String :=
  String.mk (bs.flatMap (fun b => [hexDigit (b / 16), hexDigit (b % 16)]))

/-- `hashlib.sha256(msg).hexdigest()`. -/
def sha256hex (msg : List Nat) : String := hexOfBytes (sha256bytes msg)

/-! ## UTF-8 encoding/decoding -/

/-- UTF-8 bytes of one character (Python `str.encode()`). -/
def utf8Char (c : Char) : List Nat :=
  let n := c.toNat
  if n < 128 then [n]
  else if n < 2048 then [192 + n / 64, 128 + n % 64]
  else if n < 65536 then [224 + n / 4096, 128 + (n / 64) % 64, 128 + n % 64]
  else [240 + n / 262144, 128 + (n / 4096) % 64, 128 + (n / 64) % 64, 128 + n % 64]

/-- UTF-8 bytes of a string (Python `s.encode('utf-8')`). -/
def utf8Bytes (s : String) : List Nat := s.toList.flatMap utf8Char

/-- One step of lossy UTF-8 decoding: given a first byte and the remaining
bytes, the decoded character (U+FFFD for malformed input) and how many of the
remaining bytes the sequence consumed. -/
def utf8DecodeStep (b0 : Nat) (rest : List Nat) : Char × Nat :=
  if b0 < 128 then (Char.ofNat b0, 0)
  else if 192 ≤ b0 ∧ b0 < 224 then
    match rest with
    | b1 :: _ =>
      if 128 ≤ b1 ∧ b1 < 192 then
        let n := (b0 - 192) * 64 + (b1 - 128)
        if 128 ≤ n then (Char.ofNat n, 1) else (Char.ofNat 0xFFFD, 1)
      else (Char.ofNat 0xFFFD, 0)
    | [] => (Char.ofNat 0xFFFD, 0)
  else if 224 ≤ b0 ∧ b0 < 240 then
    match rest with
    | b1 :: b2 :: _ =>
      if (128 ≤ b1 ∧ b1 < 192) ∧ (128 ≤ b2 ∧ b2 < 192) then
        let n := (b0 - 224) * 4096 + (b1 - 128) * 64 + (b2 - 128)
        if 2048 ≤ n ∧ ¬(55296 ≤ n ∧ n < 57344) then (Char.ofNat n, 2)
        else (Char.ofNat 0xFFFD, 2)
      else (Char.ofNat 0xFFFD, 0)
    | _ => (Char.ofNat 0xFFFD, 0)
  else if 240 ≤ b0 ∧ b0 < 245 then
    match rest with
    | b1 :: b2 :: b3 :: _ =>
      if (128 ≤ b1 ∧ b1 < 192) ∧ (128 ≤ b2 ∧ b2 < 192) ∧ (128 ≤ b3 ∧ b3 < 192) then
        let n := (b0 - 240) * 262144 + (b1 - 128) * 4096 + (b2 - 128) * 64 +
          (b3 - 128)
        if 65536 ≤ n ∧ n < 1114112 then (Char.ofNat n, 3)
        else (Char.ofNat 0xFFFD, 3)
      else (Char.ofNat 0xFFFD, 0)
    | _ => (Char.ofNat 0xFFFD, 0)
  else (Char.ofNat 0xFFFD, 0)

/-- The decode loop, fueled to keep the recursion structural (each step
consumes at least one byte, so the byte count is always enough fuel). -/
def utf8Go : Nat → List Nat → List Char
  | _, [] => []
  | 0, _ => []
  | fuel + 1, b0 :: rest =>
    let step := utf8DecodeStep b0 rest
    step.1 :: utf8Go fuel (rest.drop step.2)

/-- Lossy UTF-8 decoding (Python `bytes.decode('utf-8', errors='replace')`):
well-formed sequences decode normally, malformed bytes become U+FFFD.  All
inputs that claims evaluate it on are plain ASCII. -/
def utf8DecodeLossy (bs : List Nat) : List Char := utf8Go bs.length bs

/-- `bytes.decode('utf-8', errors='replace')` as a `String`. -/
def pyDecodeLossy (bs : List Nat) : String := String.mk (utf8DecodeLossy bs)

/-! ## Python string helpers -/

/-- Python whitespace test for `str.strip()` (ASCII whitespace; the inputs
this development evaluates contain no exotic unicode whitespace). -/
def pySpace (c : Char) : Bool :=
  c = ' ' || c = '\t' || c = '\n' || c = '\r' || c = Char.ofNat 11 || c = Char.ofNat 12

/-- Python `s.startswith(pre)` (structural; equivalent to
`String.startsWith`). -/
def pyStartsWith (s pre : String) : Bool := pre.toList.isPrefixOf s.toList

/-- Python `str.lower()` (ASCII case folding; the classifier inputs this
development evaluates are ASCII). -/
def pyLower (s : String) : String := String.mk (s.toList.map Char.toLower)

/-- Python `str.strip()`. -/
def pyStrip (s : String) : String :=
  String.mk (((s.toList.dropWhile pySpace).reverse.dropWhile pySpace).reverse)

/-- Python `sub in s` substring containment (for a nonempty needle). -/
def pyContains (s sub : String) : Bool :=
  1 < (s.splitOn sub).length

/-- Python `s.split(sep)[-1]` for a nonempty separator. -/
def pySplitLast (s sep : String) : String :=
  (s.splitOn sep).getLastD ""

/-- Python `'/'.join(parts[:-1])`. -/
def pyJoinInit (parts : List String) : String :=
  String.intercalate "/" parts.dropLast

/-- `pathlib.Path(p).stem`: final path component minus its extension
(CPython keeps the dot when it is leading or trailing). -/
def pyStem (p : String) : String :=
  let nm := (p.splitOn "/").getLastD ""
  let cs := nm.toList
  let idx := (List.range cs.length).foldl
    (fun acc i => if cs.getD i ' ' = '.' then some i else acc) (none : Option Nat)
  match idx with
  | some i => if 0 < i ∧ i + 1 < cs.length then String.mk (cs.take i) else nm
  | none => nm

/-- Numeric value of a digit list. -/
def digitsVal (ds : List Char) : Nat :=
  ds.foldl (fun a c => 10 * a + (c.toNat - 48)) 0

/-- Python `float(s)` on finite decimal literals
(`[+-]? (digits [. digits?] | . digits) ([eE] [+-]? digits)?`), as an exact
rational; other inputs model the raised `ValueError` as `none`.
(`inf`/`nan` literals are outside this subset and never occur in the data
the claims touch.) -/
def pyFloat? (s : String) : Option ℚ :=
  let cs := (pyStrip s).toList
  let (sgn, cs) := match cs with
    | '-' :: rest => ((-1 : ℚ), rest)
    | '+' :: rest => ((1 : ℚ), rest)
    | _ => ((1 : ℚ), cs)
  let ip := cs.takeWhile Char.isDigit
  let cs := cs.dropWhile Char.isDigit
  let (fp, cs) := match cs with
    | '.' :: rest => (rest.takeWhile Char.isDigit, rest.dropWhile Char.isDigit)
    | _ => ([], cs)
  if ip.isEmpty ∧ fp.isEmpty then none
  else
    let mant : ℚ := (digitsVal ip : ℚ) + (digitsVal fp : ℚ) / (10 : ℚ) ^ fp.length
    match cs with
    | [] => some (sgn * mant)
    | e :: rest =>
      if e = 'e' ∨ e = 'E' then
        let (esgn, rest) := match rest with
          | '-' :: r => ((-1 : ℤ), r)
          | '+' :: r => ((1 : ℤ), r)
          | _ => ((1 : ℤ), rest)
        let ed := rest.takeWhile Char.isDigit
        if ed.isEmpty ∨ ¬(rest.dropWhile Char.isDigit).isEmpty then none
        else some (sgn * mant * (10 : ℚ) ^ (esgn * (digitsVal ed : ℤ)))
      else none

/-- Python `int(s)` on decimal integer literals; `none` models `ValueError`. -/
def pyInt? (s : String) : Option ℤ :=
  let cs := (pyStrip s).toList
  let (sgn, cs) := match cs with
    | '-' :: rest => ((-1 : ℤ), rest)
    | '+' :: rest => ((1 : ℤ), rest)
    | _ => ((1 : ℤ), cs)
  if cs.isEmpty ∨ ¬cs.all Char.isDigit then none
  else some (sgn * (digitsVal cs : ℤ))

/-! ## Word-boundary keyword matching

Every classification pattern in `reorganize-synth-db.py` has the shape
`r'\bLIT\b'` where `LIT` begins and ends with a word character
(`[a-z0-9_]`, e.g. `bass`, `808`, `hi-hat`, `sine bass`).  For such a
pattern, `re.search(pattern, text, re.IGNORECASE)` on the already-lowercased
search text succeeds exactly when `LIT` occurs in `text` at a position whose
left neighbour (if any) and right neighbour (if any) are not word
characters.  The keyword tables below therefore store the literals, and
`re_word_search` embeds the regex test. -/

/-- Python regex word character `\w` (the search texts are ASCII). -/
def isWordChar (c : Char) : Bool := c.isAlphanum || c = '_'

/-- Does `pat` occur at the head of `text`, with word boundaries on both
sides (`prev` is the character immediately before `text`, if any)? -/
def wbHere (pat : List Char) (prev : Option Char) (text : List Char) : Bool :=
  pat.isPrefixOf text &&
  (match prev with | none => true | some p => !isWordChar p) &&
  (match text.drop pat.length with | [] => true | c :: _ => !isWordChar c)

/-- Scan for a word-boundary occurrence of `pat`. -/
def wbSearchAux (pat : List Char) : Option Char → List Char → Bool
  | prev, [] => wbHere pat prev []
  | prev, c :: rest => wbHere pat prev (c :: rest) || wbSearchAux pat (some c) rest

/-- `re.search(r'\b' + lit + r'\b', text, re.IGNORECASE) is not None` for a
lowercase literal `lit` beginning and ending with word characters, applied
to lowercase `text`. -/
def re_word_search (lit text : String) : Bool :=
  wbSearchAux lit.toList none text.toList

/-! ## Data records (the `@dataclass` definitions shared by both scripts)

The Python `PresetData` stores its nested lists as `json.dumps` strings and
the classifier reads them back with `json.loads`; since that round-trip is
the identity on these flat records, the embedding stores the lists
directly. -/

/-- `WavetableData`: parsed wavetable.  `samples` is the decoded float32
payload (`data_b64` holds its base64 little-endian float32 encoding, byte
length `4 * samples.length`). -/
structure WavetableData where
  id : String
  name : String
  source : String
  category : String
  path : String
  frame_count : Nat
  frame_size : Nat
  sample_rate : Nat := 44100
  bit_depth : Nat := 32
  is_third_party : Bool := false
  contributor : Option String := none
  samples : List ℚ := []
  sha256 : String := ""
  file_size : Nat := 0
deriving Repr, DecidableEq

/-- `OscillatorData`: oscillator settings from a preset. -/
structure OscillatorData where
  index : Nat
  osc_type : ℤ
  osc_type_name : String
  wavetable_name : Option String := none
  wavetable_position : ℚ := 0
  level : ℚ := 1
  pan : ℚ := 0
  tune_semitones : ℚ := 0
  tune_cents : ℚ := 0
  unison_voices : ℤ := 1
  unison_detune : ℚ := 0
  unison_blend : ℚ := 0
  phase : ℚ := 0
  phase_randomize : ℚ := 0
  distortion : ℚ := 0
  fm_depth : ℚ := 0
  extra_params : String := "()"
deriving Repr, DecidableEq

/-- `FilterData`: filter settings from a preset. -/
structure FilterData where
  index : Nat
  filter_type : ℤ
  filter_type_name : String
  cutoff : ℚ := 1000
  resonance : ℚ := 0
  drive : ℚ := 0
  mix : ℚ := 1
  keytrack : ℚ := 0
  env_depth : ℚ := 0
  extra_params : String := "()"
deriving Repr, DecidableEq

/-- `EnvelopeData`: envelope settings. -/
structure EnvelopeData where
  name : String
  attack : ℚ := 1 / 100
  decay : ℚ := 1 / 10
  sustain : ℚ := 7 / 10
  release : ℚ := 3 / 10
  attack_curve : ℚ := 0
  decay_curve : ℚ := 0
  release_curve : ℚ := 0
deriving Repr, DecidableEq

/-- `LFOData`: LFO settings. -/
structure LFOData where
  index : Nat
  waveform : ℤ
  waveform_name : String
  rate : ℚ := 1
  sync : Bool := false
  sync_rate : String := "1/4"
  depth : ℚ := 1
  phase : ℚ := 0
  delay : ℚ := 0
  fade_in : ℚ := 0
deriving Repr, DecidableEq

/-- `ModulationData`: modulation routing. -/
structure ModulationData where
  source : String
  destination : String
  amount : ℚ
  bipolar : Bool := true
deriving Repr, DecidableEq

/-- `EffectData`: effect settings.  `params` is the serialized sub-map of
settings keys sharing the effect's prefix (kept as an association list). -/
structure EffectData where
  effect_type : String
  enabled : Bool := true
  mix : ℚ := 1
  params : List (String × ℚ) := []
deriving Repr, DecidableEq

/-- `PresetData`: complete preset data. -/
structure PresetData where
  id : String
  name : String
  source : String
  category : String
  path : String
  author : Option String := none
  description : Option String := none
  tags : List String := []
  oscillators : List OscillatorData := []
  filters : List FilterData := []
  envelopes : List EnvelopeData := []
  lfos : List LFOData := []
  modulations : List ModulationData := []
  effects : List EffectData := []
  master_volume : ℚ := 1
  master_tune : ℚ := 0
  polyphony : ℤ := 16
  portamento : ℚ := 0
  raw_data : Option String := none
  sha256 : String := ""
  file_size : Nat := 0
deriving Repr, DecidableEq

/-! ## Surge type-code → name tables -/

/-- `get_surge_osc_type_name` (13 oscillator types). -/
def get_surge_osc_type_name (t : ℤ) : String :=
  match (([(0, "Classic"), (1, "Sine"), (2, "Wavetable"), (3, "SH Noise"),
    (4, "Audio Input"), (5, "FM3"), (6, "FM2"), (7, "Window"),
    (8, "Modern"), (9, "String"), (10, "Twist"), (11, "Alias"),
    (12, "Phase Mod")] : List (ℤ × String)).find? (fun p => p.1 = t)) with
  | some p => p.2
  | none => "Unknown (" ++ toString t ++ ")"

/-- `get_surge_filter_type_name` (28 filter types). -/
def get_surge_filter_type_name (t : ℤ) : String :=
  match (([(0, "Off"), (1, "LP 12dB"), (2, "LP 24dB"), (3, "LP Legacy"),
    (4, "HP 12dB"), (5, "HP 24dB"), (6, "BP 12dB"), (7, "BP 24dB"),
    (8, "Notch 12dB"), (9, "Notch 24dB"), (10, "Comb+"), (11, "Comb-"),
    (12, "Sample&Hold"), (13, "Vintage Ladder"), (14, "OB-Xd 12dB"),
    (15, "OB-Xd 24dB"), (16, "K35 LP"), (17, "K35 HP"), (18, "Diode Ladder"),
    (19, "Cutoff Warp LP"), (20, "Cutoff Warp HP"), (21, "Cutoff Warp BP"),
    (22, "Cutoff Warp N"), (23, "Resonance Warp LP"), (24, "Resonance Warp HP"),
    (25, "Resonance Warp BP"), (26, "Resonance Warp N"),
    (27, "Tri-Pole")] : List (ℤ × String)).find? (fun p => p.1 = t)) with
  | some p => p.2
  | none => "Unknown (" ++ toString t ++ ")"

/-- `get_surge_lfo_shape_name` (10 LFO shapes). -/
def get_surge_lfo_shape_name (t : ℤ) : String :=
  match (([(0, "Sine"), (1, "Triangle"), (2, "Square"), (3, "Ramp"),
    (4, "Noise"), (5, "S&H"), (6, "Envelope"), (7, "Stepseq"),
    (8, "MSEG"), (9, "Function")] : List (ℤ × String)).find? (fun p => p.1 = t)) with
  | some p => p.2
  | none => "Unknown (" ++ toString t ++ ")"

/-! ## A small XML tree and `xml.etree.ElementTree.fromstring`

`ET.fromstring` is Python standard-library code; the embedding below models
it on the well-formed element subset the Surge patches use (a prolog,
nested tags, double-quoted attributes, text content ignored).  Only the
parse *outcome* matters to the claims: theorems about extracted fields
quantify over the tree, and the one concrete input evaluated is a trivial
document. -/

/-- An element tree node. -/
inductive XmlNode where
  | mk (tag : String) (attrs : List (String × String)) (children : List XmlNode)
deriving Repr

/-- Element tag. -/
def XmlNode.tag : XmlNode → String
  | .mk t _ _ => t

/-- Element attributes. -/
def XmlNode.attrs : XmlNode → List (String × String)
  | .mk _ a _ => a

/-- Element children. -/
def XmlNode.children : XmlNode → List XmlNode
  | .mk _ _ c => c

/-- `element.get(key)`. -/
def XmlNode.getAttr (n : XmlNode) (k : String) : Option String :=
  (n.attrs.find? (fun p => p.1 = k)).map (fun p => p.2)

/-- All strict descendants of a node, in document (pre-)order.  The fuel
bounds the tree depth and keeps the recursion structural; callers pass a
fuel no smaller than the depth (a tree parsed from a string is never deeper
than the string is long). -/
def xmlDescGo : Nat → XmlNode → List XmlNode
  | 0, _ => []
  | fuel + 1, n => (n.children.map (fun c => c :: xmlDescGo fuel c)).flatten

/-- `element.findall('.//tag')`: descendants with the given tag, in document
order (fuel as in `xmlDescGo`). -/
def findAllDesc (fuel : Nat) (tag : String) (n : XmlNode) : List XmlNode :=
  (xmlDescGo fuel n).filter (fun c => c.tag = tag)

/-- Characters allowed in an XML name (subset). -/
def xmlNameChar (c : Char) : Bool :=
  c.isAlphanum || c = '_' || c = '-' || c = ':' || c = '.'

/-- Parse a run of attributes (`name="value"`): fueled loop. -/
def xmlParseAttrs : Nat → List Char → Option (List (String × String) × List Char)
  | 0, _ => none
  | fuel + 1, cs =>
    let cs := cs.dropWhile pySpace
    match cs with
    | c :: _ =>
      if xmlNameChar c then
        let nm := cs.takeWhile xmlNameChar
        let cs := (cs.dropWhile xmlNameChar).dropWhile pySpace
        match cs with
        | '=' :: cs =>
          match cs.dropWhile pySpace with
          | '"' :: cs =>
            let v := cs.takeWhile (fun d => d ≠ '"')
            match cs.dropWhile (fun d => d ≠ '"') with
            | '"' :: cs =>
              match xmlParseAttrs fuel cs with
              | some (rest, cs') => some ((String.mk nm, String.mk v) :: rest, cs')
              | none => none
            | _ => none
          | _ => none
        | _ => none
      else some ([], cs)
    | [] => some ([], cs)

mutual

/-- Parse one element starting at `<`. -/
def xmlParseElem : Nat → List Char → Option (XmlNode × List Char)
  | 0, _ => none
  | fuel + 1, cs =>
    match cs with
    | '<' :: cs =>
      let nm := cs.takeWhile xmlNameChar
      if nm.isEmpty then none
      else
        match xmlParseAttrs (fuel + 1) (cs.dropWhile xmlNameChar) with
        | none => none
        | some (attrs, cs) =>
          match cs.dropWhile pySpace with
          | '/' :: '>' :: cs => some (.mk (String.mk nm) attrs [], cs)
          | '>' :: cs =>
            match xmlParseChildren fuel cs with
            | none => none
            | some (children, cs) =>
              match cs with
              | '<' :: '/' :: cs =>
                let nm2 := cs.takeWhile xmlNameChar
                if nm2 = nm then
                  match (cs.dropWhile xmlNameChar).dropWhile pySpace with
                  | '>' :: cs => some (.mk (String.mk nm) attrs children, cs)
                  | _ => none
                else none
              | _ => none
          | _ => none
    | _ => none

/-- Parse element content (child elements; text is skipped) up to the
closing tag, which is left in the remainder. -/
def xmlParseChildren : Nat → List Char → Option (List XmlNode × List Char)
  | 0, _ => none
  | fuel + 1, cs =>
    let cs := cs.dropWhile (fun c => c ≠ '<')
    match cs with
    | '<' :: '/' :: _ => some ([], cs)
    | '<' :: _ =>
      match xmlParseElem fuel cs with
      | none => none
      | some (child, cs) =>
        match xmlParseChildren fuel cs with
        | none => none
        | some (rest, cs) => some (child :: rest, cs)
    | _ => none

end

/-- Skip past the end (`?>`) of an XML prolog. -/
def xmlSkipProlog : List Char → List Char
  | [] => []
  | '?' :: '>' :: rest => rest
  | _ :: rest => xmlSkipProlog rest

/-- `xml.etree.ElementTree.fromstring` on the modelled subset: optional
`<?xml ... ?>` prolog, one root element, only trailing whitespace. -/
def et_fromstring (s : String) : Option XmlNode :=
  let cs := s.toList.dropWhile pySpace
  let cs := if ['<', '?'].isPrefixOf cs then (xmlSkipProlog cs).dropWhile pySpace
            else cs
  match xmlParseElem (cs.length + 1) cs with
  | some (root, rest) =>
    if (rest.dropWhile pySpace).isEmpty then some root else none
  | none => none

/-! ## Surge FXP preset parsing
(`parse_surge_fxp` / `parse_surge_preset_xml` in `parse-synth-assets.py`;
the `synth-asset-downloader.py` copies are byte-for-byte the same logic). -/

/-- `float(el.get(key, default))`: `none` models the `ValueError` raised on a
non-numeric attribute (caught blanketly by `parse_surge_fxp`). -/
def attrFloat (n : XmlNode) (k : String) (d : ℚ) : Option ℚ :=
  match n.getAttr k with
  | some s => pyFloat? s
  | none => some d

/-- `int(el.get(key, default))` with the same error convention. -/
def attrInt (n : XmlNode) (k : String) (d : ℤ) : Option ℤ :=
  match n.getAttr k with
  | some s => pyInt? s
  | none => some d

/-- The oscillator loop body of `parse_surge_preset_xml`. -/
def surgeOscOfXml (i : Nat) (osc : XmlNode) : Option OscillatorData := do
  let osc_type ← attrInt osc "type" 0
  let morph ← attrFloat osc "morph" 0
  let level ← attrFloat osc "level" 1
  let pan ← attrFloat osc "pan" 0
  let pitch ← attrFloat osc "pitch" 0
  let detune ← attrFloat osc "detune" 0
  let uv ← attrInt osc "unison_voices" 1
  let ud ← attrFloat osc "unison_detune" 0
  pure { index := i, osc_type := osc_type,
         osc_type_name := get_surge_osc_type_name osc_type,
         wavetable_name := osc.getAttr "wavetable",
         wavetable_position := morph, level := level, pan := pan,
         tune_semitones := pitch, tune_cents := detune,
         unison_voices := uv, unison_detune := ud }

/-- The filter loop body of `parse_surge_preset_xml`. -/
def surgeFilterOfXml (i : Nat) (filt : XmlNode) : Option FilterData := do
  let filt_type ← attrInt filt "type" 0
  let cutoff ← attrFloat filt "cutoff" 1000
  let resonance ← attrFloat filt "resonance" 0
  let drive ← attrFloat filt "drive" 0
  let keytrack ← attrFloat filt "keytrack" 0
  pure { index := i, filter_type := filt_type,
         filter_type_name := get_surge_filter_type_name filt_type,
         cutoff := cutoff, resonance := resonance, drive := drive,
         keytrack := keytrack }

/-- The envelope loop body of `parse_surge_preset_xml`. -/
def surgeEnvOfXml (env : XmlNode) : Option EnvelopeData := do
  let attack ← attrFloat env "attack" (1 / 100)
  let decay ← attrFloat env "decay" (1 / 10)
  let sustain ← attrFloat env "sustain" (7 / 10)
  let release ← attrFloat env "release" (3 / 10)
  pure { name := (env.getAttr "id").getD "amp",
         attack := attack, decay := decay, sustain := sustain,
         release := release }

/-- The LFO loop body of `parse_surge_preset_xml`. -/
def surgeLfoOfXml (i : Nat) (lfo : XmlNode) : Option LFOData := do
  let shape ← attrInt lfo "shape" 0
  let rate ← attrFloat lfo "rate" 1
  let depth ← attrFloat lfo "magnitude" 1
  pure { index := i, waveform := shape,
         waveform_name := get_surge_lfo_shape_name shape, rate := rate,
         sync := ((lfo.getAttr "temposync").getD "0") = "1", depth := depth }

/-- The modulation-matrix loop body of `parse_surge_preset_xml`. -/
def surgeModOfXml (m : XmlNode) : Option ModulationData := do
  let depth ← attrFloat m "depth" 0
  pure { source := (m.getAttr "source").getD "",
         destination := (m.getAttr "destination").getD "",
         amount := depth }

/-- The effects loop body of `parse_surge_preset_xml`. -/
def surgeFxOfXml (fx : XmlNode) : Option EffectData := do
  let mix ← attrFloat fx "mix" 1
  pure { effect_type := (fx.getAttr "type").getD "off",
         enabled := ((fx.getAttr "enabled").getD "1") = "1", mix := mix }

/-- The six nested-structure lists `parse_surge_preset_xml` collects
(the `none` exits of the collection are the `ET.ParseError` branch and the
attribute-conversion `ValueError` that the enclosing `parse_surge_fxp`
catches).  Note that the stored content hash and file size of the final
record are those of the stripped XML text, not of the FXP container
bytes. -/
structure SurgePresetLists where
  oscillators : List OscillatorData
  filters : List FilterData
  envelopes : List EnvelopeData
  lfos : List LFOData
  modulations : List ModulationData
  effects : List EffectData
deriving Repr, DecidableEq

/-- The scene/modulation/effect walk of `parse_surge_preset_xml`: every
`scene` descendant contributes its `osc`/`filter`/`envelope`/`lfo`
descendants in order; `modrouting` and `fx` elements are collected globally.
`none` is the propagated attribute-conversion `ValueError`.  The fuel is
passed to the descendant walks (see `xmlDescGo`). -/
def surgePresetLists (fuel : Nat) (root : XmlNode) :
    Option SurgePresetLists := do
  let scenes := findAllDesc fuel "scene" root
  let oscLists ← scenes.mapM (fun scene =>
    (findAllDesc fuel "osc" scene).enum.mapM (fun p => surgeOscOfXml p.1 p.2))
  let filterLists ← scenes.mapM (fun scene =>
    (findAllDesc fuel "filter" scene).enum.mapM
      (fun p => surgeFilterOfXml p.1 p.2))
  let envLists ← scenes.mapM (fun scene =>
    (findAllDesc fuel "envelope" scene).mapM surgeEnvOfXml)
  let lfoLists ← scenes.mapM (fun scene =>
    (findAllDesc fuel "lfo" scene).enum.mapM (fun p => surgeLfoOfXml p.1 p.2))
  let modulations ← (findAllDesc fuel "modrouting" root).mapM surgeModOfXml
  let effects ← (findAllDesc fuel "fx" root).mapM surgeFxOfXml
  pure { oscillators := oscLists.flatten, filters := filterLists.flatten,
         envelopes := envLists.flatten, lfos := lfoLists.flatten,
         modulations := modulations, effects := effects }

/-- The record assembly of `parse_surge_preset_xml` from the (stripped) XML
text, the tree's root attributes and the collected lists. -/
def surgePresetRecord (xml_str path preset_name : String) (root : XmlNode)
    (L : SurgePresetLists) : PresetData :=
  let category0 := (root.getAttr "category").getD "Uncategorized"
  let category :=
    if pyContains path "patches_3rdparty" then
      let parts := (pySplitLast path "patches_3rdparty/").splitOn "/"
      if 1 < parts.length then parts.getD 0 "" else category0
    else
      let parts := (pySplitLast path "patches_factory/").splitOn "/"
      if 1 < parts.length then parts.getD 0 "" else category0
  { id := (sha256hex (utf8Bytes path)).take 16,
    name := (root.getAttr "name").getD preset_name, source := "surge",
    category := category, path := path, author := root.getAttr "author",
    description := root.getAttr "comment",
    oscillators := L.oscillators, filters := L.filters,
    envelopes := L.envelopes, lfos := L.lfos,
    modulations := L.modulations, effects := L.effects,
    raw_data := some (xml_str.take 10000),
    sha256 := sha256hex (utf8Bytes xml_str),
    file_size := xml_str.length }

/-- The top of `parse_surge_preset_xml`: strip, check the document start
token, parse the tree, walk it, assemble the preset record. -/
def parse_surge_preset_xml (xml_str path preset_name : String) :
    Option PresetData :=
  let xml_str := pyStrip xml_str
  if ¬(pyStartsWith xml_str "<?xml" ∨ pyStartsWith xml_str "<patch") then none
  else
    (et_fromstring xml_str).bind (fun root =>
      (surgePresetLists (xml_str.length + 1) root).map
        (surgePresetRecord xml_str path preset_name root))

/-- The embedded-XML search of `parse_surge_fxp`: first occurrence of
`<?xml` or `<patch` within the first 1000 bytes, then the last `>` scanning
backwards from the chunk's end; `none` when no start token is found. -/
def fxp_extract_xml (chunk : List Nat) : Option (List Nat) :=
  let startTok? := (List.range (min chunk.length 1000)).find? (fun i =>
    pySlice chunk i 5 = [60, 63, 120, 109, 108] ∨
    pySlice chunk i 6 = [60, 112, 97, 116, 99, 104])
  match startTok? with
  | none => none
  | some xml_start =>
    let gt? := ((List.range chunk.length).filter (fun i =>
      xml_start < i ∧ byteD chunk i = 62)).getLast?
    let xml_end := match gt? with
      | some i => i + 1
      | none => chunk.length
    some (pySlice chunk xml_start (xml_end - xml_start))

/-- `parse_surge_fxp(data, path)`: validate the `CcnK` container magic and
the `FxCk`/`FPCh` variant tag, read the null-terminated name at offset 28,
and for the `FPCh` chunk variant extract and parse the embedded XML. -/
def parse_surge_fxp (data : List Nat) (path : String) : Option PresetData :=
  if data.length < 60 then none
  else if pySlice data 0 4 ≠ [67, 99, 110, 75] then none
  else
    let fx_magic := pySlice data 8 4
    if fx_magic ≠ [70, 120, 67, 107] ∧ fx_magic ≠ [70, 80, 67, 104] then none
    else
      let preset_name := pyDecodeLossy ((pySlice data 28 28).takeWhile (fun b => b ≠ 0))
      if fx_magic = [70, 80, 67, 104] then
        match be32? data 56 with
        | none => none
        | some chunk_size =>
          match fxp_extract_xml (pySlice data 60 chunk_size) with
          | none => none
          | some xbytes =>
            parse_surge_preset_xml (pyDecodeLossy xbytes) path preset_name
      else none

/-! ## Surge wavetable parsing -/

/-- Logical identifier: `hashlib.sha256(path.encode()).hexdigest()[:16]`,
the truncated hash of the logical path string. -/
def truncPathId (path : String) : String :=
  (sha256hex (utf8Bytes path)).take 16

/-- Category/contributor derivation from the wavetable path (shared by the
`.wt` and `.wav` branches of `parse-synth-assets.py`): returns
`(is_third_party, contributor, category)`. -/
def surgeWtPathMeta (path : String) : Bool × Option String × String :=
  if pyContains path "wavetables_3rdparty" then
    let parts := (pySplitLast path "wavetables_3rdparty/").splitOn "/"
    (true,
     if 1 < parts.length then some (parts.getD 0 "") else none,
     if 1 < parts.length then pyJoinInit parts else "Uncategorized")
  else
    let parts := (pySplitLast path "wavetables/").splitOn "/"
    (false, none, if 1 < parts.length then pyJoinInit parts else "root")

/-- The decode stage of `parse_surge_wt` of `parse-synth-assets.py`:
validate the `vaws` magic, read `frame_size`/`frame_count`, read the
optional `flags` word (buffer ≥ 16 bytes) fixing the header at 16 bytes —
else header 12 and flags 0 — and decode float32 or int16/32768 samples
depending on bit 2 of `flags`, returning `(samples, bit_depth)`.  Truncated
buffers yield `none` (every read below is inside the length guard, so no
exception arises). -/
def surgeWtDecode (data : List Nat) : Option (List ℚ × Nat) :=
  if data.length < 12 then none
  else if le32 data 0 ≠ 0x77617673 then none
  else
    let spt := le32 data 4 * le32 data 8
    let flags := if 16 ≤ data.length then le32 data 12 else 0
    let header_size := if 16 ≤ data.length then 16 else 12
    if flags &&& 4 ≠ 0 then
      if data.length < header_size + spt * 4 then none
      else some (unpack_f32le (pySlice data header_size (spt * 4)), 32)
    else
      if data.length < header_size + spt * 2 then none
      else some ((unpack_i16le (pySlice data header_size (spt * 2))).map
        (fun (s : ℤ) => (s : ℚ) / 32768), 16)

/-- The record assembly of `parse_surge_wt`, given decoded samples and bit
depth. -/
def surgeWtRecord (data : List Nat) (path : String) (sd : List ℚ × Nat) :
    WavetableData :=
  let meta := surgeWtPathMeta path
  { id := truncPathId path, name := pyStem path, source := "surge",
    category := meta.2.2, path := path, frame_count := le32 data 8,
    frame_size := le32 data 4, bit_depth := sd.2,
    is_third_party := meta.1, contributor := meta.2.1,
    samples := sd.1, sha256 := sha256hex data, file_size := data.length }

/-- `parse_surge_wt(file_path)` assembled from its decode stage. -/
def parse_surge_wt (data : List Nat) (path : String) : Option WavetableData :=
  (surgeWtDecode data).map (surgeWtRecord data path)

/-- `parse_surge_wt_header(data)` of `synth-asset-downloader.py`. -/
structure SurgeWtHeader where
  frame_size : Nat
  frame_count : Nat
  is_float : Bool
  header_size : Nat
deriving Repr, DecidableEq

/-- Parse the Surge `.wt` header: magic `vaws`, `frame_size`, `frame_count`,
optional `flags` (present iff the buffer has ≥ 16 bytes, which also fixes
the header size at 16 instead of 12); `is_float` is bit 2 of `flags`. -/
def parse_surge_wt_header (data : List Nat) : Option SurgeWtHeader :=
  if data.length < 12 then none
  else if le32 data 0 ≠ 0x77617673 then none
  else
    let flags := if 16 ≤ data.length then le32 data 12 else 0
    some { frame_size := le32 data 4, frame_count := le32 data 8,
           is_float := flags &&& 4 ≠ 0,
           header_size := if 16 ≤ data.length then 16 else 12 }

/-- The decode stage of `parse_surge_wavetable`: exact length check before
decoding (so a too-short buffer exits with `none` before any unpack is
attempted), then float32 or int16/32768 samples per the header's float
bit. -/
def surgeWtDecodeH (data : List Nat) (h : SurgeWtHeader) :
    Option (List ℚ × Nat) :=
  let spt := h.frame_size * h.frame_count
  if h.is_float then
    if data.length < h.header_size + spt * 4 then none
    else some (unpack_f32le (pySlice data h.header_size (spt * 4)), 32)
  else
    if data.length < h.header_size + spt * 2 then none
    else some ((unpack_i16le (pySlice data h.header_size (spt * 2))).map
      (fun (s : ℤ) => (s : ℚ) / 32768), 16)

/-- `parse_surge_wavetable(data, name, path, category, is_third_party,
contributor)` of `synth-asset-downloader.py`, assembled from
`parse_surge_wt_header` and the decode stage above. -/
def parse_surge_wavetable (data : List Nat) (name path category : String)
    (third : Bool) (contributor : Option String) : Option WavetableData :=
  (parse_surge_wt_header data).bind (fun h =>
    (surgeWtDecodeH data h).map (fun sd =>
      { id := truncPathId path, name := name, source := "surge",
        category := category, path := path, frame_count := h.frame_count,
        frame_size := h.frame_size, bit_depth := sd.2,
        is_third_party := third, contributor := contributor,
        samples := sd.1, sha256 := sha256hex data,
        file_size := data.length }))

/-! ## WAV-as-wavetable parsing (`parse_surge_wav` of `parse-synth-assets.py`) -/

/-- The WAV chunk walk: linear scan from `pos`, collecting the latest `fmt `
chunk and stopping at the first `data` chunk, with a one-byte pad after
odd-sized chunks.  The fuel bounds the iteration count (each step advances
`pos` by at least 8, so `data.length` steps always suffice). -/
def wFindChunks (data : List Nat) :
    Nat → Nat → Option (List Nat) → Option (List Nat) →
    Option (List Nat) × Option (List Nat)
  | 0, _, fmt?, audio? => (fmt?, audio?)
  | fuel + 1, pos, fmt?, audio? =>
    if pos < data.length - 8 then
      let cid := pySlice data pos 4
      let csize := le32 data (pos + 4)
      let next := pos + 8 + csize + (if csize % 2 = 1 then 1 else 0)
      if cid = [102, 109, 116, 32] then
        wFindChunks data fuel next (some (pySlice data (pos + 8) csize)) audio?
      else if cid = [100, 97, 116, 97] then
        (fmt?, some (pySlice data (pos + 8) csize))
      else wFindChunks data fuel next fmt? audio?
    else (fmt?, audio?)

/-- First frame size in `[256, 512, 1024, 2048, 4096]` dividing the sample
count exactly, defaulting to 2048. -/
def wavFrameSize (total : Nat) : Nat :=
  match ([256, 512, 1024, 2048, 4096].find? (fun s => total % s = 0)) with
  | some s => s
  | none => 2048

/-- Decode sample `i` (first channel only): 16-bit, 24-bit and 32-bit
(int or IEEE float per the format tag) produce one sample; any other bit
depth appends nothing, exactly as the Python loop body. -/
def wavSampleAt (audio : List Nat) (fmtTag bits bpsch i : Nat) : List ℚ :=
  let off := i * bpsch
  if bits = 16 then
    [(i16_of (byteD audio off) (byteD audio (off + 1)) : ℚ) / 32768]
  else if bits = 24 then
    let b2 := byteD audio (off + 2)
    let ext := if b2 < 128 then 0 else 255
    [(i32_of (byteD audio off) (byteD audio (off + 1)) b2 ext : ℚ) / 8388608]
  else if bits = 32 then
    if fmtTag = 3 then
      [f32_of (byteD audio off) (byteD audio (off + 1)) (byteD audio (off + 2))
        (byteD audio (off + 3))]
    else
      [(i32_of (byteD audio off) (byteD audio (off + 1)) (byteD audio (off + 2))
        (byteD audio (off + 3)) : ℚ) / 2147483648]
  else []

/-- The WAV sample-decoding loop over all `total` samples. -/
def wavDecodeSamples (audio : List Nat) (fmtTag bits bpsch total : Nat) :
    List ℚ :=
  (List.range total).flatMap (wavSampleAt audio fmtTag bits bpsch)

/-- The front half of `parse_surge_wav`: RIFF/WAVE validation, chunk walk,
`fmt ` field reads, PCM/IEEE-float format gate and the per-sample decoding
loop.  Returns `(sample_rate, bits_per_sample, total_samples, samples)`;
`none` covers every early return and every caught exception (short `fmt `
chunk, zero channels/bit-depth divisor). -/
def wavDecoded (data : List Nat) :
    Option (Nat × Nat × Nat × List ℚ) :=
  if data.length < 44 then none
  else if pySlice data 0 4 ≠ [82, 73, 70, 70] ∨
      pySlice data 8 4 ≠ [87, 65, 86, 69] then none
  else
    let fa := wFindChunks data data.length 12 none none
    match fa with
    | (some fmt, some audio) =>
      if fmt.isEmpty ∨ audio.isEmpty then none
      else do
        let audio_format ← le16? fmt 0
        let num_channels ← le16? fmt 2
        let sample_rate ← le32? fmt 4
        let bits ← le16? fmt 14
        if audio_format ≠ 1 ∧ audio_format ≠ 3 then none
        else
          let bps := bits / 8
          if bps * num_channels = 0 then none
          else
            let total := audio.length / (bps * num_channels)
            some (sample_rate, bits, total,
              wavDecodeSamples audio audio_format bits (bps * num_channels) total)
    | _ => none

/-- `parse_surge_wav(file_path)` of `parse-synth-assets.py`: decode
(`wavDecoded`), then frame-size inference over the canonical sizes and
truncation to whole frames. -/
def parse_surge_wav (data : List Nat) (path : String) : Option WavetableData :=
  match wavDecoded data with
  | none => none
  | some (sample_rate, bits, total, samples) =>
    let frame_size := wavFrameSize total
    let frame_count := max 1 (total / frame_size)
    let meta := surgeWtPathMeta path
    some { id := truncPathId path, name := pyStem path,
           source := "surge", category := meta.2.2, path := path,
           frame_count := frame_count, frame_size := frame_size,
           sample_rate := sample_rate, bit_depth := bits,
           is_third_party := meta.1, contributor := meta.2.1,
           samples := samples.take (frame_count * frame_size),
           sha256 := sha256hex data, file_size := data.length }

/-! ## Vital parsing (`synth-asset-downloader.py`)

The Vital inputs are gzipped JSON.  `gzip.decompress` / `json.loads` /
`base64.b64decode` are Python standard-library calls; the embedding's
boundary is the *decoded JSON document*, passed in as a structured value
(`VitalPresetJson` / `VitalWtJson`) holding exactly the fields the parser
reads; base64 wave blocks are decoded by an executable `b64decode`.  The
raw input bytes are still passed separately, because the stored content
hash and file size are computed from them. -/

/-- Python `int(x)` on a float: truncation toward zero. -/
def pyTruncQ (q : ℚ) : ℤ := q.num / (q.den : ℤ)

/-- Look up a key in the flat settings map (`key in settings` /
`settings.get(key)`). -/
def sGet (settings : List (String × ℚ)) (k : String) : Option ℚ :=
  (settings.find? (fun p => p.1 = k)).map (fun p => p.2)

/-- `settings.get(key, default)`. -/
def sGetD (settings : List (String × ℚ)) (k : String) (d : ℚ) : ℚ :=
  (sGet settings k).getD d

/-- `get_vital_filter_type_name` (8 filter models). -/
def get_vital_filter_type_name (t : ℤ) : String :=
  match (([(0, "Analog"), (1, "Dirty"), (2, "Ladder"), (3, "Digital"),
    (4, "Diode"), (5, "Formant"), (6, "Comb"),
    (7, "Phaser")] : List (ℤ × String)).find? (fun p => p.1 = t)) with
  | some p => p.2
  | none => "Unknown (" ++ toString t ++ ")"

/-- `get_vital_lfo_shape_name` (6 named shapes, otherwise `Custom`). -/
def get_vital_lfo_shape_name (t : ℤ) : String :=
  match (([(0, "Sine"), (1, "Triangle"), (2, "Saw Up"), (3, "Saw Down"),
    (4, "Square"), (5, "Random")] : List (ℤ × String)).find? (fun p => p.1 = t)) with
  | some p => p.2
  | none => "Custom"

/-- One entry of the preset's `wavetables` map (`{'name': ...}`). -/
structure VWtEntry where
  wtName : Option String := none
deriving Repr, DecidableEq

/-- One entry of the preset's `modulations` list. -/
structure VModJson where
  source : Option String := none
  destination : Option String := none
  amount : Option ℚ := none
  bipolar : Option ℚ := none
deriving Repr, DecidableEq

/-- The decoded Vital preset JSON document: the top-level strings, the flat
numeric `settings` map (already resolved as `preset.get('settings', preset)`),
the per-slot `wavetables` map and the `modulations` list. -/
structure VitalPresetJson where
  preset_name : Option String := none
  author : Option String := none
  comments : Option String := none
  preset_style : Option String := none
  settings : List (String × ℚ) := []
  wavetables : List (String × VWtEntry) := []
  modulations : List VModJson := []
deriving Repr, DecidableEq

/-- Oscillator slot `i` (1..3) of `parse_vital_preset`: a spec is emitted
only when the key `osc_<i>_on` is present **and** its value is truthy
(nonzero). -/
def vitalOscSlot (settings : List (String × ℚ))
    (wavetables : List (String × VWtEntry)) (i : Nat) : List OscillatorData :=
  let pfx := "osc_" ++ toString i ++ "_"
  match sGet settings (pfx ++ "on") with
  | none => []
  | some osc_on =>
    if osc_on ≠ 0 then
      let wt_name : Option String :=
        match (wavetables.find? (fun p => p.1 = "osc_" ++ toString i)) with
        | some p => some ((p.2.wtName).getD ("Wavetable " ++ toString i))
        | none => none
      [{ index := i - 1, osc_type := 2, osc_type_name := "Wavetable",
         wavetable_name := wt_name,
         wavetable_position := sGetD settings (pfx ++ "wave_frame") 0,
         level := sGetD settings (pfx ++ "level") 1,
         pan := sGetD settings (pfx ++ "pan") 0,
         tune_semitones := sGetD settings (pfx ++ "transpose") 0,
         tune_cents := sGetD settings (pfx ++ "tune") 0,
         unison_voices := pyTruncQ (sGetD settings (pfx ++ "unison_voices") 1),
         unison_detune := sGetD settings (pfx ++ "unison_detune") 0,
         unison_blend := sGetD settings (pfx ++ "unison_blend") 0,
         phase := sGetD settings (pfx ++ "phase") 0,
         phase_randomize := sGetD settings (pfx ++ "random_phase") 0,
         distortion := sGetD settings (pfx ++ "distortion_amount") 0 }]
    else []

/-- The oscillator loop of `parse_vital_preset` (slots 1..3). -/
def parse_vital_oscillators (settings : List (String × ℚ))
    (wavetables : List (String × VWtEntry)) : List OscillatorData :=
  [1, 2, 3].flatMap (vitalOscSlot settings wavetables)

/-- Filter slot `i` (1..2) of `parse_vital_preset`: a spec is emitted
whenever the key `filter_<i>_on` is present — its value (`filt_on` in the
source) is read but never used, so even a disabled filter is emitted. -/
def vitalFilterSlot (settings : List (String × ℚ)) (i : Nat) : List FilterData :=
  let pfx := "filter_" ++ toString i ++ "_"
  if (sGet settings (pfx ++ "on")).isSome then
    let filt_model := pyTruncQ (sGetD settings (pfx ++ "model") 0)
    [{ index := i - 1, filter_type := filt_model,
       filter_type_name := get_vital_filter_type_name filt_model,
       cutoff := sGetD settings (pfx ++ "cutoff") 60,
       resonance := sGetD settings (pfx ++ "resonance") 0,
       drive := sGetD settings (pfx ++ "drive") 0,
       mix := sGetD settings (pfx ++ "mix") 1,
       keytrack := sGetD settings (pfx ++ "keytrack") 0 }]
  else []

/-- The filter loop of `parse_vital_preset` (slots 1..2). -/
def parse_vital_filters (settings : List (String × ℚ)) : List FilterData :=
  [1, 2].flatMap (vitalFilterSlot settings)

/-- The envelope loop of `parse_vital_preset` (`env_1` .. `env_6`, emitted
when `<name>_attack` is present). -/
def parse_vital_envelopes (settings : List (String × ℚ)) : List EnvelopeData :=
  ["env_1", "env_2", "env_3", "env_4", "env_5", "env_6"].flatMap (fun en =>
    let pfx := en ++ "_"
    if (sGet settings (pfx ++ "attack")).isSome then
      [{ name := en,
         attack := sGetD settings (pfx ++ "attack") 0,
         decay := sGetD settings (pfx ++ "decay") 0,
         sustain := sGetD settings (pfx ++ "sustain") 1,
         release := sGetD settings (pfx ++ "release") 0,
         attack_curve := sGetD settings (pfx ++ "attack_power") 0,
         decay_curve := sGetD settings (pfx ++ "decay_power") 0,
         release_curve := sGetD settings (pfx ++ "release_power") 0 }]
    else [])

/-- The LFO loop of `parse_vital_preset` (slots 1..8, emitted when
`lfo_<i>_frequency` is present).  `sync_rate` renders the numeric
`sync_type` setting; no claim reads it. -/
def parse_vital_lfos (settings : List (String × ℚ)) : List LFOData :=
  [1, 2, 3, 4, 5, 6, 7, 8].flatMap (fun i =>
    let pfx := "lfo_" ++ toString i ++ "_"
    if (sGet settings (pfx ++ "frequency")).isSome then
      let shape := pyTruncQ (sGetD settings (pfx ++ "shape") 0)
      [{ index := i - 1, waveform := shape,
         waveform_name := get_vital_lfo_shape_name shape,
         rate := sGetD settings (pfx ++ "frequency") 1,
         sync := 0 < sGetD settings (pfx ++ "sync") 0,
         sync_rate := match sGet settings (pfx ++ "sync_type") with
           | some v => toString v
           | none => "1/4",
         phase := sGetD settings (pfx ++ "phase") 0,
         delay := sGetD settings (pfx ++ "delay") 0,
         fade_in := sGetD settings (pfx ++ "fade") 0 }]
    else [])

/-- The effects loop of `parse_vital_preset`: the fixed list of named effect
types, emitted when `<type>_on` is present; `enabled` is the truthiness of
that flag, `mix` is forced to 1 for the EQ, and `params` captures every
setting sharing the prefix. -/
def parse_vital_effects (settings : List (String × ℚ)) : List EffectData :=
  ["chorus", "compressor", "delay", "distortion", "eq",
   "filter_fx", "flanger", "phaser", "reverb"].flatMap (fun fx_type =>
    let pfx := fx_type ++ "_"
    match sGet settings (pfx ++ "on") with
    | none => []
    | some fx_on =>
      [{ effect_type := fx_type, enabled := 0 < fx_on,
         mix := if fx_type ≠ "eq" then sGetD settings (pfx ++ "mix") 1 else 1,
         params := settings.filter (fun p => pyStartsWith p.1 pfx) }])

/-- `parse_vital_preset(data, path)` after the gzip/JSON decode of `data`
produced the document `j`.  The stored content hash and file size come from
the raw (still compressed) input bytes; every other field comes from `j` or
the path.  (`raw_data` holds a prefix of the decompressed text, which lies
outside the decode boundary and is read by no claim.) -/
def parse_vital_preset (data : List Nat) (path : String)
    (j : VitalPresetJson) : Option PresetData :=
  let preset_name := (j.preset_name).getD (pyStem path)
  let author := (j.author).getD ""
  let comments := (j.comments).getD ""
  let style := (j.preset_style).getD ""
  let category :=
    if style ≠ "" then style
    else if pyContains path "/" then
      (path.splitOn "/").getD ((path.splitOn "/").length - 2) ""
    else "Uncategorized"
  some { id := truncPathId path, name := preset_name, source := "vital",
         category := category, path := path,
         author := if author ≠ "" then some author else none,
         description := if comments ≠ "" then some comments else none,
         oscillators := parse_vital_oscillators j.settings j.wavetables,
         filters := parse_vital_filters j.settings,
         envelopes := parse_vital_envelopes j.settings,
         lfos := parse_vital_lfos j.settings,
         modulations := j.modulations.map (fun m =>
           { source := (m.source).getD "", destination := (m.destination).getD "",
             amount := (m.amount).getD 0,
             bipolar := decide ((m.bipolar).getD 1 = (1 : ℚ)) }),
         effects := parse_vital_effects j.settings,
         master_volume := sGetD j.settings "volume" 1,
         polyphony := pyTruncQ (sGetD j.settings "polyphony" 32),
         portamento := sGetD j.settings "portamento_time" 0,
         raw_data := none,
         sha256 := sha256hex data, file_size := data.length }

/-- Base64 value of one alphabet character. -/
def b64Val (c : Char) : Option Nat :=
  if 'A' ≤ c ∧ c ≤ 'Z' then some (c.toNat - 65)
  else if 'a' ≤ c ∧ c ≤ 'z' then some (c.toNat - 71)
  else if '0' ≤ c ∧ c ≤ '9' then some (c.toNat + 4)
  else if c = '+' then some 62
  else if c = '/' then some 63
  else none

/-- Decode 6-bit groups into bytes (4 → 3, trailing 3 → 2, trailing 2 → 1). -/
def b64Groups : List Nat → List Nat
  | a :: b :: c :: d :: rest =>
    (a * 4 + b / 16) :: ((b % 16) * 16 + c / 4) :: ((c % 4) * 64 + d) ::
      b64Groups rest
  | [a, b] => [a * 4 + b / 16]
  | [a, b, c] => [a * 4 + b / 16, (b % 16) * 16 + c / 4]
  | _ => []

/-- `base64.b64decode` (default non-validating mode: alphabet characters up
to the first `=` are decoded, everything else is discarded). -/
def b64decode (s : String) : List Nat :=
  b64Groups ((s.toList.takeWhile (fun c => c ≠ '=')).filterMap b64Val)

/-- One keyframe of a Vital wavetable (`{'wave_data': <base64>}`). -/
structure VKeyframe where
  wave_data : Option String := none
deriving Repr, DecidableEq

/-- One component of a Vital wavetable group. -/
structure VComponent where
  keyframes : List VKeyframe := []
deriving Repr, DecidableEq

/-- One group of a Vital wavetable. -/
structure VGroup where
  components : List VComponent := []
deriving Repr, DecidableEq

/-- The decoded Vital wavetable JSON document. -/
structure VitalWtJson where
  groups : List VGroup := []
deriving Repr, DecidableEq

/-- The keyframe walk of `parse_vital_wavetable`: every truthy `wave_data`
block across `groups → components → keyframes`, base64-decoded, in
encounter order. -/
def vitalFrames (j : VitalWtJson) : List (List Nat) :=
  j.groups.flatMap (fun g => g.components.flatMap (fun c =>
    c.keyframes.filterMap (fun kf =>
      match kf.wave_data with
      | some s => if s ≠ "" then some (b64decode s) else none
      | none => none)))

/-- The frame-concatenation loop of `parse_vital_wavetable`: each frame is
unpacked as `len(frame) // 4` little-endian float32 samples; a frame whose
byte length is not a multiple of 4 makes `struct.unpack` raise, which the
enclosing handler turns into no asset (`none`). -/
def vitalConcatSamples : List (List Nat) → Option (List ℚ)
  | [] => some []
  | f :: rest =>
    if f.length % 4 = 0 then
      (vitalConcatSamples rest).map (fun tl => unpack_f32le f ++ tl)
    else none

/-- `parse_vital_wavetable(data, name, path, category)` after the gzip/JSON
decode of `data` produced `j`: reject documents without groups or without
keyframes, concatenate the per-keyframe sample blocks (the keyframe count
defines `frame_count`; `frame_size` is the fixed constant 2048), and hash
the raw input bytes. -/
def parse_vital_wavetable (data : List Nat) (name path category : String)
    (j : VitalWtJson) : Option WavetableData :=
  if j.groups.isEmpty then none
  else
    let frames := vitalFrames j
    if frames.isEmpty then none
    else
      match vitalConcatSamples frames with
      | none => none
      | some all =>
        some { id := truncPathId path, name := name, source := "vital",
               category := category, path := path,
               frame_count := frames.length, frame_size := 2048,
               samples := all, sha256 := sha256hex data,
               file_size := data.length }

/-! ## Classification (`reorganize-synth-db.py`)

The keyword tables store the literal of each `r'\bLIT\b'` pattern; see
`re_word_search`.  `classify_preset` in the source receives the oscillator
and envelope lists as their `json.dumps` serializations and immediately
`json.loads` them back, which is the identity round-trip on these records,
so the embedding passes the lists directly (the `except` around each
`json.loads` only fires on malformed text, which that round-trip cannot
produce). -/

/-- `CATEGORIES`: the fixed 13-category enumeration, in order. -/
def CATEGORIES : List String :=
  ["bass", "lead", "pad", "pluck", "keys", "brass", "strings", "vocal",
   "fx", "drum", "arp", "ambient", "other"]

/-- `SUBCATEGORIES`: category → registered subcategory ids. -/
def SUBCATEGORIES : List (String × List String) :=
  [("bass", ["sub-bass", "reese", "growl", "wobble", "pluck-bass", "fm-bass",
             "acid-bass", "generic-bass"]),
   ("lead", ["mono-lead", "poly-lead", "screech", "acid-lead", "saw-lead",
             "square-lead", "generic-lead"]),
   ("pad", ["warm-pad", "evolving-pad", "ambient-pad", "dark-pad",
            "bright-pad", "string-pad", "generic-pad"]),
   ("pluck", ["bell", "mallet", "pizzicato", "harpsichord", "guitar",
              "generic-pluck"]),
   ("keys", ["piano", "electric-piano", "organ", "clav", "generic-keys"]),
   ("brass", ["synth-brass", "horn", "generic-brass"]),
   ("strings", ["synth-strings", "orchestral", "generic-strings"]),
   ("vocal", ["choir", "formant", "talkbox", "generic-vocal"]),
   ("fx", ["riser", "impact", "texture", "noise", "generic-fx"]),
   ("drum", ["kick", "snare", "hihat", "perc", "generic-drum"]),
   ("arp", ["sequence", "arp-lead", "arp-bass", "generic-arp"]),
   ("ambient", ["drone", "soundscape", "cinematic", "generic-ambient"]),
   ("other", ["generic"])]

/-- `CATEGORY_KEYWORDS`: category → word-boundary keyword literals. -/
def CATEGORY_KEYWORDS : List (String × List String) :=
  [("bass", ["bass", "sub", "reese", "growl", "wobble", "808", "low", "deep",
             "rumble", "thump", "boom", "heavy", "massive", "fat"]),
   ("lead", ["lead", "solo", "screech", "scream", "acid", "mono", "stab",
             "sharp", "cutting", "bright", "searing", "laser", "sync"]),
   ("pad", ["pad", "atmosphere", "ambient", "warm", "lush", "soft",
            "evolving", "sweep", "swell", "drift", "float", "cloud",
            "heaven", "space"]),
   ("pluck", ["pluck", "bell", "mallet", "marimba", "vibes", "kalimba",
              "pizz", "guitar", "harp", "picked", "pling", "plink", "chime",
              "celeste"]),
   ("keys", ["piano", "key", "organ", "clav", "rhodes", "wurli", "epiano",
             "ep", "tine", "hammer", "keyboard", "acoustic"]),
   ("brass", ["brass", "horn", "trumpet", "trombone", "blare", "fanfare",
              "section"]),
   ("strings", ["string", "violin", "cello", "orchestra", "ensemble",
                "section", "legato", "arco", "bowed"]),
   ("vocal", ["vocal", "voice", "choir", "vox", "formant", "talk", "speech",
              "sing", "aah", "ooh", "human"]),
   ("fx", ["fx", "effect", "sfx", "noise", "texture", "riser", "impact",
           "hit", "swoosh", "whoosh", "zap", "glitch", "stutter",
           "transition"]),
   ("drum", ["drum", "kick", "snare", "hihat", "hi-hat", "perc", "tom",
             "clap", "cymbal", "rim", "beat"]),
   ("arp", ["arp", "arpegg", "sequence", "seq", "pattern", "pulse", "motion",
            "rhythmic", "tempo"]),
   ("ambient", ["ambient", "drone", "soundscape", "ethereal", "cinematic",
                "film", "movie", "atmos"])]

/-- `SUBCATEGORY_KEYWORDS`: subcategory → word-boundary keyword literals,
in source order. -/
def SUBCATEGORY_KEYWORDS : List (String × List String) :=
  [("sub-bass", ["sub", "808", "sine bass", "pure"]),
   ("reese", ["reese", "dnb", "neuro", "liquid"]),
   ("growl", ["growl", "dubstep", "brostep", "dirty", "filthy"]),
   ("wobble", ["wobble", "wub", "lfo bass"]),
   ("acid-bass", ["acid", "303", "squelch"]),
   ("fm-bass", ["fm", "dx", "digital bass"]),
   ("saw-lead", ["saw", "supersaw", "trance"]),
   ("square-lead", ["square", "pulse"]),
   ("warm-pad", ["warm", "analog", "vintage"]),
   ("evolving-pad", ["evolv", "morph", "moving"]),
   ("dark-pad", ["dark", "ominous", "sinister"]),
   ("bright-pad", ["bright", "airy", "light"]),
   ("bell", ["bell", "tubular", "glock"]),
   ("mallet", ["mallet", "marimba", "xylo", "vibes"]),
   ("electric-piano", ["ep", "rhodes", "wurli", "tine"]),
   ("organ", ["organ", "hammond", "b3", "drawbar"]),
   ("choir", ["choir", "chorus", "voices"]),
   ("formant", ["formant", "vowel", "talk"]),
   ("riser", ["riser", "build", "tension"]),
   ("impact", ["impact", "hit", "drop"]),
   ("drone", ["drone", "sustain", "held"]),
   ("soundscape", ["soundscape", "cinematic", "film"])]

/-- The lowercased search string `f"{name} {original_category}".lower()`. -/
def searchText (name original_category : String) : String :=
  pyLower (name ++ " " ++ original_category)

/-- Keyword contribution to one category's score: +2 per matching pattern
(the source's loop over `CATEGORY_KEYWORDS` adds 2 to `scores[category]`
once per match; categories are distinct keys, so the total per category is
twice its match count). -/
def kwScore (text cat : String) : Nat :=
  match CATEGORY_KEYWORDS.find? (fun p => p.1 = cat) with
  | some p => 2 * p.2.countP (fun pat => re_word_search pat text)
  | none => 0

/-- Envelope threshold bonuses of one amp envelope, as contributed to
category `cat`.  The decimal thresholds are exact here; every claim-relevant
comparison has the same truth value over doubles. -/
def envBonus (env : EnvelopeData) (cat : String) : Nat :=
  (if env.attack < 1/50 ∧ env.decay < 3/10 ∧ env.sustain < 3/10 ∧
      cat = "pluck" then 2 else 0) +
  (if env.attack < 1/50 ∧ 7/10 < env.sustain ∧ (cat = "lead" ∨ cat = "bass")
      then 1 else 0) +
  (if 1/10 < env.attack ∧ cat = "pad" then 2 else 0) +
  (if 1 < env.release ∧ (cat = "pad" ∨ cat = "ambient") then 1 else 0) +
  (if env.attack < 1/100 ∧ env.decay < 1/5 ∧ env.sustain < 1/10 ∧
      cat = "drum" then 2 else 0)

/-- Total envelope bonus: only envelopes named `amp` or `env_1` count. -/
def envBonusAll (envs : List EnvelopeData) (cat : String) : Nat :=
  ((envs.filter (fun e => decide (e.name = "amp" ∨ e.name = "env_1"))).map
    (fun e => envBonus e cat)).sum

/-- Oscillator bonuses: unison voices > 4 → lead, transpose ≤ −1 octave
(`tune_semitones / 12` when nonzero, else 0) → bass. -/
def oscBonus (osc : OscillatorData) (cat : String) : Nat :=
  (if 4 < osc.unison_voices ∧ cat = "lead" then 2 else 0) +
  (if (if osc.tune_semitones ≠ 0 then osc.tune_semitones / 12 else 0) ≤ -1 ∧
      cat = "bass" then 2 else 0)

/-- Total oscillator bonus. -/
def oscBonusAll (oscs : List OscillatorData) (cat : String) : Nat :=
  (oscs.map (fun o => oscBonus o cat)).sum

/-- The aggregate classifier score of one category. -/
def catScore (text : String) (oscs : List OscillatorData)
    (envs : List EnvelopeData) (cat : String) : Nat :=
  kwScore text cat + envBonusAll envs cat + oscBonusAll oscs cat

/-- Python's `max(iterable, key=f)`: the first element achieving the maximum
(a later element replaces the current best only when strictly greater). -/
def pymax (f : String → Nat) : String → List String → String
  | acc, [] => acc
  | acc, c :: cs => pymax f (if f acc < f c then c else acc) cs

/-- Subcategories registered under a category. -/
def subcatsOf (cat : String) : List String :=
  match SUBCATEGORIES.find? (fun p => p.1 = cat) with
  | some p => p.2
  | none => []

/-- The override condition of the subcategory scan: pattern `pat` matches
the search text and subcategory `sub1` is registered under the chosen
category `best`. -/
def subKwHit (text best sub1 pat : String) : Bool :=
  re_word_search pat text &&
    SUBCATEGORIES.any (fun q => q.2.contains sub1 && q.1 == best)

/-- Inner loop of the subcategory scan: each matching, eligible pattern of
one `(subcat, patterns)` entry overwrites the running subcategory. -/
def pickInner (text best sub1 : String) (pats : List String)
    (sub : String) : String :=
  pats.foldl (fun sub2 pat =>
    if subKwHit text best sub1 pat then sub1 else sub2) sub

/-- Outer loop of the subcategory scan over a keyword table. -/
def pickGo (text best : String) (l : List (String × List String))
    (sub : String) : String :=
  l.foldl (fun sub p => pickInner text best p.1 p.2 sub) sub

/-- The subcategory override scan: for each `(subcat, patterns)` of
`SUBCATEGORY_KEYWORDS` in order, every matching pattern whose subcategory is
registered under the chosen category overwrites the current subcategory
(cross-category matches are discarded); the last eligible match wins. -/
def pickSubcategory (text best dflt : String) : String :=
  pickGo text best SUBCATEGORY_KEYWORDS dflt

/-- `classify_preset(name, original_category, oscillators_json,
envelopes_json)`: keyword scores plus envelope and oscillator heuristics;
the best category is the first maximum of the insertion-ordered score map
(`CATEGORIES` order), demoted to `other` when its score is zero; the
subcategory defaults to `generic-<category>` (`generic` for `other`) and is
overridden by eligible subcategory keyword matches. -/
def classify_preset (name original_category : String)
    (oscillators : List OscillatorData) (envelopes : List EnvelopeData) :
    String × String :=
  let search_text := searchText name original_category
  let score := catScore search_text oscillators envelopes
  let best0 := pymax score (CATEGORIES.headD "other") CATEGORIES.tail
  let best := if score best0 = 0 then "other" else best0
  let dflt := if best ≠ "other" then "generic-" ++ best else "generic"
  (best, pickSubcategory search_text best dflt)

/-! ## Persistence (`insert_wavetable`, `INSERT OR REPLACE` keyed on `id`)

The `wavetables` table has `id TEXT PRIMARY KEY`; SQLite's
`INSERT OR REPLACE` deletes any row with the conflicting primary key and
inserts the new row.  The table is modelled as a list of rows. -/

/-- `insert_wavetable(conn, wt)`: insert-or-replace by primary key `id`. -/
def insert_wavetable (db : List WavetableData) (wt : WavetableData) :
    List WavetableData :=
  wt :: db.filter (fun r => decide (r.id ≠ wt.id))

/-- One ingestion step of the main loop: parse the bytes at a logical path
and store the asset if the parse succeeded. -/
def ingest_wt (db : List WavetableData) (path : String) (bytes : List Nat) :
    List WavetableData :=
  match parse_surge_wt bytes path with
  | some wt => insert_wavetable db wt
  | none => db

/-- Number of stored rows with a given primary key. -/
def rowCount (db : List WavetableData) (i : String) : Nat :=
  (db.filter (fun r => decide (r.id = i))).length

/-- Row lookup by primary key. -/
def lookupId (db : List WavetableData) (i : String) : Option WavetableData :=
  db.find? (fun r => decide (r.id = i))

/-! # Theorems -/

/-! ## List and unpack helper lemmas -/

theorem length_unpack_f32le : ∀ l : List Nat, (unpack_f32le l).length = l.length / 4
  | b0 :: b1 :: b2 :: b3 :: rest => by
    simp [unpack_f32le, length_unpack_f32le rest]
    omega
  | [] => by simp [unpack_f32le]
  | [_] => by simp [unpack_f32le]
  | [_, _] => by simp [unpack_f32le]
  | [_, _, _] => by simp [unpack_f32le]

theorem length_unpack_i16le : ∀ l : List Nat, (unpack_i16le l).length = l.length / 2
  | lo :: hi :: rest => by
    simp [unpack_i16le, length_unpack_i16le rest]
    omega
  | [] => by simp [unpack_i16le]
  | [_] => by simp [unpack_i16le]

theorem pySlice_length (data : List Nat) (start len : Nat)
    (h : start + len ≤ data.length) : (pySlice data start len).length = len := by
  simp [pySlice]
  omega

/-! ## Upsert lemmas (C9 support) -/

theorem rowCount_insert (db : List WavetableData) (wt : WavetableData) :
    rowCount (insert_wavetable db wt) wt.id = 1 := by
  simp only [rowCount, insert_wavetable, List.filter_cons, decide_eq_true_eq,
    List.filter_filter, if_true]
  have : ∀ l : List WavetableData,
      (l.filter (fun r => decide (r.id = wt.id) && decide (r.id ≠ wt.id))) = [] := by
    intro l
    apply List.filter_eq_nil_iff.mpr
    intro r _
    by_cases h : r.id = wt.id <;> simp [h]
  simp [this db]

theorem lookupId_insert (db : List WavetableData) (wt : WavetableData) :
    lookupId (insert_wavetable db wt) wt.id = some wt := by
  simp [lookupId, insert_wavetable, List.find?_cons]

theorem insert_wavetable_idem (db : List WavetableData) (wt : WavetableData) :
    insert_wavetable (insert_wavetable db wt) wt = insert_wavetable db wt := by
  simp only [insert_wavetable, List.filter_cons, decide_eq_true_eq,
    List.filter_filter]
  rw [if_neg (by simp)]
  congr 1
  apply List.filter_congr
  intro r _
  by_cases h : r.id = wt.id <;> simp [h]

/-- Every success of `parse_surge_wt` stores the truncated path hash as its
id (the record in each success branch is built with `id := truncPathId path`). -/
theorem parse_surge_wt_id (data : List Nat) (path : String) (wt : WavetableData)
    (h : parse_surge_wt data path = some wt) : wt.id = truncPathId path := by
  simp only [parse_surge_wt, Option.map_eq_some'] at h
  obtain ⟨sd, -, rfl⟩ := h
  simp only [surgeWtRecord]

/-- The decode stage of `parse_surge_wt` produces exactly
`frame_size × frame_count` samples (the slice lengths are
`spt * width` and the unpacking divides back by the width). -/
theorem surgeWtDecode_length (data : List Nat) (sd : List ℚ × Nat)
    (h : surgeWtDecode data = some sd) :
    sd.1.length = le32 data 4 * le32 data 8 := by
  simp only [surgeWtDecode] at h
  by_cases h1 : data.length < 12
  · simp [h1] at h
  rw [if_neg h1] at h
  by_cases h2 : le32 data 0 ≠ 0x77617673
  · rw [if_pos h2] at h; exact Option.noConfusion h
  rw [if_neg h2] at h
  by_cases h3 : ((if 16 ≤ data.length then le32 data 12 else 0) &&& 4 ≠ 0)
  · rw [if_pos h3] at h
    by_cases h4 : data.length <
        (if 16 ≤ data.length then 16 else 12) + le32 data 4 * le32 data 8 * 4
    · rw [if_pos h4] at h; exact Option.noConfusion h
    · rw [if_neg h4] at h
      simp only [Option.some.injEq] at h
      subst h
      simp only [length_unpack_f32le]
      rw [pySlice_length data _ _ (by omega)]
      omega
  · rw [if_neg h3] at h
    by_cases h4 : data.length <
        (if 16 ≤ data.length then 16 else 12) + le32 data 4 * le32 data 8 * 2
    · rw [if_pos h4] at h; exact Option.noConfusion h
    · rw [if_neg h4] at h
      simp only [Option.some.injEq] at h
      subst h
      simp only [List.length_map, length_unpack_i16le]
      rw [pySlice_length data _ _ (by omega)]
      omega

/-- The `parse_surge_wt_header` decode stage: same exact sample count. -/
theorem surgeWtDecodeH_length (data : List Nat) (hd : SurgeWtHeader)
    (sd : List ℚ × Nat) (h : surgeWtDecodeH data hd = some sd) :
    sd.1.length = hd.frame_size * hd.frame_count := by
  simp only [surgeWtDecodeH] at h
  by_cases h3 : hd.is_float = true
  · rw [if_pos h3] at h
    by_cases h4 : data.length <
        hd.header_size + hd.frame_size * hd.frame_count * 4
    · rw [if_pos h4] at h; exact Option.noConfusion h
    · rw [if_neg h4] at h
      simp only [Option.some.injEq] at h
      subst h
      simp only [length_unpack_f32le]
      rw [pySlice_length data _ _ (by omega)]
      omega
  · rw [if_neg h3] at h
    by_cases h4 : data.length <
        hd.header_size + hd.frame_size * hd.frame_count * 2
    · rw [if_pos h4] at h; exact Option.noConfusion h
    · rw [if_neg h4] at h
      simp only [Option.some.injEq] at h
      subst h
      simp only [List.length_map, length_unpack_i16le]
      rw [pySlice_length data _ _ (by omega)]
      omega

/-- **C9.** Ingesting the same logical path any number of times yields
exactly one stored row, keyed by the truncated SHA-256 hash of the path
string; re-ingesting byte-identical input leaves the whole row (hence the
stored content hash) unchanged, and re-ingesting changed bytes replaces the
row under the same logical id rather than creating a new one. -/
theorem c9_upsert_by_logical_path (db : List WavetableData) (p : String)
    (b b' : List Nat) (wt wt' : WavetableData)
    (h : parse_surge_wt b p = some wt) (h' : parse_surge_wt b' p = some wt') :
    wt.id = truncPathId p ∧ wt'.id = truncPathId p ∧
    rowCount (ingest_wt (ingest_wt db p b) p b') (truncPathId p) = 1 ∧
    lookupId (ingest_wt (ingest_wt db p b) p b') (truncPathId p) = some wt' ∧
    (b' = b → ingest_wt (ingest_wt db p b) p b' = ingest_wt db p b) := by
  have hid := parse_surge_wt_id b p wt h
  have hid' := parse_surge_wt_id b' p wt' h'
  have e1 : ingest_wt db p b = insert_wavetable db wt := by
    simp [ingest_wt, h]
  have e2 : ingest_wt (insert_wavetable db wt) p b' =
      insert_wavetable (insert_wavetable db wt) wt' := by
    simp [ingest_wt, h']
  refine ⟨hid, hid', ?_, ?_, ?_⟩
  · rw [e1, e2, ← hid']
    exact rowCount_insert _ _
  · rw [e1, e2, ← hid']
    exact lookupId_insert _ _
  · intro hb
    subst hb
    rw [e1, e2]
    have hww : wt' = wt := by
      rw [h] at h'
      exact ((Option.some.injEq _ _).mp h').symm
    rw [hww]
    exact insert_wavetable_idem db wt

/-- First ingestion input for the C9 witness: a minimal valid `.wt` buffer
(magic, frame_size 1, frame_count 1, one zero int16 sample). -/
def c9bytesA : List Nat :=
  [115, 118, 97, 119, 1, 0, 0, 0, 1, 0, 0, 0, 0, 0]

/-- Second ingestion input: same geometry, different sample byte. -/
def c9bytesB : List Nat :=
  [115, 118, 97, 119, 1, 0, 0, 0, 1, 0, 0, 0, 1, 0]

/-- Witness for C9 at a concrete path and two concrete byte buffers. -/
theorem c9_upsert_by_logical_path_witness :
    ∃ wt wt',
      parse_surge_wt c9bytesA "wavetables/a/x.wt" = some wt ∧
      parse_surge_wt c9bytesB "wavetables/a/x.wt" = some wt' ∧
      (wt.id = truncPathId "wavetables/a/x.wt" ∧
       wt'.id = truncPathId "wavetables/a/x.wt" ∧
       rowCount (ingest_wt (ingest_wt [] "wavetables/a/x.wt" c9bytesA)
           "wavetables/a/x.wt" c9bytesB) (truncPathId "wavetables/a/x.wt") = 1 ∧
       lookupId (ingest_wt (ingest_wt [] "wavetables/a/x.wt" c9bytesA)
           "wavetables/a/x.wt" c9bytesB) (truncPathId "wavetables/a/x.wt") =
         some wt' ∧
       (c9bytesB = c9bytesA →
        ingest_wt (ingest_wt [] "wavetables/a/x.wt" c9bytesA)
            "wavetables/a/x.wt" c9bytesB =
          ingest_wt [] "wavetables/a/x.wt" c9bytesA)) :=
  ⟨_, _, rfl, rfl,
    c9_upsert_by_logical_path [] "wavetables/a/x.wt" c9bytesA c9bytesB _ _ rfl rfl⟩

/-! ## Bit and indexing lemmas (C3/C4 support) -/

theorem land4_testBit (f : Nat) : decide (f &&& 4 ≠ 0) = f.testBit 2 := by
  rw [show (4 : Nat) = 2 ^ 2 by norm_num, Nat.and_two_pow]
  cases h : f.testBit 2 <;> simp [h]

theorem land4_ne_iff (f : Nat) : (f &&& 4 ≠ 0) ↔ f.testBit 2 = true := by
  have := land4_testBit f
  constructor
  · intro hf
    rw [← this]
    simpa using hf
  · intro hb
    intro hz
    rw [← this] at hb
    simp [hz] at hb

theorem getD_map_of_lt {α β : Type} (f : α → β) (l : List α) (k : Nat)
    (hk : k < l.length) (d : β) (d' : α) :
    (l.map f).getD k d = f (l.getD k d') := by
  simp only [List.getD_eq_getElem?_getD, List.getElem?_map]
  rw [List.getElem?_eq_getElem hk]
  simp

theorem unpack_i16le_getD : ∀ (l : List Nat) (k : Nat), 2 * k + 1 < l.length →
    (unpack_i16le l).getD k 0 = i16_of (l.getD (2 * k) 0) (l.getD (2 * k + 1) 0)
  | lo :: hi :: rest, 0, _ => by simp [unpack_i16le]
  | lo :: hi :: rest, k + 1, hk => by
    have hk' : 2 * k + 1 < rest.length := by
      simp only [List.length_cons] at hk
      omega
    have ih := unpack_i16le_getD rest k hk'
    have e1 : 2 * (k + 1) = 2 * k + 1 + 1 := by omega
    have e2 : 2 * (k + 1) + 1 = 2 * k + 1 + 1 + 1 := by omega
    simp only [unpack_i16le, e1, e2, List.getD_cons_succ]
    exact ih
  | [], k, hk => by simp at hk
  | [_], k, hk => by
    simp only [List.length_cons, List.length_nil] at hk
    omega

theorem pySlice_getD (data : List Nat) (start L m : Nat) (hm : m < L) :
    (pySlice data start L).getD m 0 = byteD data (start + m) := by
  simp only [pySlice, byteD, List.getD_eq_getElem?_getD, List.getElem?_take,
    hm, if_true, List.getElem?_drop]

/-- Inversion of `parse_surge_wt_header`: the header fields in terms of the
raw buffer. -/
theorem parse_surge_wt_header_inv (data : List Nat) (hd : SurgeWtHeader)
    (hh : parse_surge_wt_header data = some hd) :
    12 ≤ data.length ∧ le32 data 0 = 0x77617673 ∧
    hd.frame_size = le32 data 4 ∧ hd.frame_count = le32 data 8 ∧
    hd.header_size = (if 16 ≤ data.length then 16 else 12) ∧
    hd.is_float =
      decide ((if 16 ≤ data.length then le32 data 12 else 0) &&& 4 ≠ 0) := by
  simp only [parse_surge_wt_header] at hh
  by_cases h1 : data.length < 12
  · simp [h1] at hh
  rw [if_neg h1] at hh
  by_cases h2 : le32 data 0 ≠ 0x77617673
  · rw [if_pos h2] at hh
    exact Option.noConfusion hh
  rw [if_neg h2] at hh
  simp only [Option.some.injEq] at hh
  subst hh
  refine ⟨by omega, by omega, rfl, rfl, rfl, rfl⟩

/-- `surgeWtDecode` rejects (returns `none` for) any valid-magic buffer
shorter than header + samples × width. -/
theorem surgeWtDecode_short (data : List Nat)
    (h12 : ¬ data.length < 12) (hm : le32 data 0 = 0x77617673)
    (hshort : data.length < (if 16 ≤ data.length then 16 else 12) +
      le32 data 4 * le32 data 8 *
        (if (if 16 ≤ data.length then le32 data 12 else 0) &&& 4 ≠ 0
         then 4 else 2)) :
    surgeWtDecode data = none := by
  simp only [surgeWtDecode]
  rw [if_neg h12, if_neg (by simp [hm])]
  by_cases h3 : (if 16 ≤ data.length then le32 data 12 else 0) &&& 4 ≠ 0
  · rw [if_pos h3]
    rw [if_pos (by rw [if_pos h3] at hshort; omega)]
  · rw [if_neg h3]
    rw [if_pos (by rw [if_neg h3] at hshort; omega)]

/-- `surgeWtDecodeH` rejects any buffer shorter than header + samples ×
width (width 4 for float32, 2 for int16). -/
theorem surgeWtDecodeH_short (data : List Nat) (hd : SurgeWtHeader)
    (hshort : data.length < hd.header_size +
      hd.frame_size * hd.frame_count * (if hd.is_float then 4 else 2)) :
    surgeWtDecodeH data hd = none := by
  simp only [surgeWtDecodeH]
  by_cases hf : hd.is_float = true
  · rw [if_pos hf]
    rw [if_pos (by rw [if_pos hf] at hshort; omega)]
  · rw [if_neg hf]
    rw [if_pos (by rw [if_neg hf] at hshort; omega)]

/-- **C4.** For every proprietary-binary wavetable buffer with a valid
header whose length is less than `header_length + frame_count × frame_size ×
sample_width` (width 4 for float32, 2 for int16), both parsers return no
asset.  The embeddings are total functions into `Option`, mirroring the
source, where every byte access on this path sits behind the explicit
length checks, so no exception can escape the parser boundary. -/
theorem c4_truncated_buffer_rejected (data : List Nat)
    (name path category : String) (third : Bool) (contributor : Option String)
    (hd : SurgeWtHeader) (hh : parse_surge_wt_header data = some hd)
    (hshort : data.length < hd.header_size +
      hd.frame_count * hd.frame_size * (if hd.is_float then 4 else 2)) :
    parse_surge_wavetable data name path category third contributor = none ∧
    parse_surge_wt data path = none := by
  obtain ⟨h12, hm, hfs, hfc, hhs, hfl⟩ := parse_surge_wt_header_inv data hd hh
  rw [Nat.mul_comm hd.frame_count hd.frame_size] at hshort
  constructor
  · simp only [parse_surge_wavetable, hh, Option.some_bind]
    rw [surgeWtDecodeH_short data hd hshort]
    rfl
  · simp only [parse_surge_wt]
    rw [surgeWtDecode_short data (by omega) hm ?bound]
    · rfl
    case bound =>
      rw [hfs, hfc, hhs, hfl] at hshort
      by_cases h3 : (if 16 ≤ data.length then le32 data 12 else 0) &&& 4 ≠ 0
      · rw [if_pos h3]
        rw [decide_eq_true h3] at hshort
        simpa using hshort
      · rw [if_neg h3]
        rw [decide_eq_false h3] at hshort
        simpa using hshort

/-- A 16-byte valid-magic buffer declaring 2×2 int16 samples (expected
length 24): the C4 witness input. -/
def c4bytes : List Nat :=
  [115, 118, 97, 119, 2, 0, 0, 0, 2, 0, 0, 0, 0, 0, 0, 0]

/-- Witness for C4: the truncated buffer above is rejected by both parsers. -/
theorem c4_truncated_buffer_rejected_witness :
    parse_surge_wavetable c4bytes "n" "p" "c" false none = none ∧
    parse_surge_wt c4bytes "p" = none :=
  c4_truncated_buffer_rejected c4bytes "n" "p" "c" false none
    ⟨2, 2, false, 16⟩ (by decide) (by decide)

/-- Inversion of the int16 branch of `surgeWtDecode`. -/
theorem surgeWtDecode_int16 (data : List Nat) (sd : List ℚ × Nat)
    (h : surgeWtDecode data = some sd)
    (hnf : ¬((if 16 ≤ data.length then le32 data 12 else 0) &&& 4 ≠ 0)) :
    sd.2 = 16 ∧
    sd.1 = (unpack_i16le (pySlice data (if 16 ≤ data.length then 16 else 12)
      (le32 data 4 * le32 data 8 * 2))).map (fun (s : ℤ) => (s : ℚ) / 32768) ∧
    ¬ data.length < (if 16 ≤ data.length then 16 else 12) +
      le32 data 4 * le32 data 8 * 2 := by
  simp only [surgeWtDecode] at h
  by_cases h1 : data.length < 12
  · simp [h1] at h
  rw [if_neg h1] at h
  by_cases h2 : le32 data 0 ≠ 0x77617673
  · rw [if_pos h2] at h
    exact Option.noConfusion h
  rw [if_neg h2, if_neg hnf] at h
  by_cases h4 : data.length < (if 16 ≤ data.length then 16 else 12) +
      le32 data 4 * le32 data 8 * 2
  · rw [if_pos h4] at h
    exact Option.noConfusion h
  · rw [if_neg h4] at h
    simp only [Option.some.injEq] at h
    subst h
    exact ⟨rfl, rfl, h4⟩

/-- Inversion of the float32 branch of `surgeWtDecode`. -/
theorem surgeWtDecode_float (data : List Nat) (sd : List ℚ × Nat)
    (h : surgeWtDecode data = some sd)
    (hf : (if 16 ≤ data.length then le32 data 12 else 0) &&& 4 ≠ 0) :
    sd.2 = 32 := by
  simp only [surgeWtDecode] at h
  by_cases h1 : data.length < 12
  · simp [h1] at h
  rw [if_neg h1] at h
  by_cases h2 : le32 data 0 ≠ 0x77617673
  · rw [if_pos h2] at h
    exact Option.noConfusion h
  rw [if_neg h2, if_pos hf] at h
  by_cases h4 : data.length < (if 16 ≤ data.length then 16 else 12) +
      le32 data 4 * le32 data 8 * 4
  · rw [if_pos h4] at h
    exact Option.noConfusion h
  · rw [if_neg h4] at h
    simp only [Option.some.injEq] at h
    subst h
    rfl

/-- **C3.** For every valid-magic proprietary-binary wavetable buffer: with
at least 16 bytes the header length is 16 and the flags word is read from
bytes 12..16, bit 2 of it selecting float32 decoding; with 12 to 15 bytes
the header length is 12 and flags is treated as 0 (so the float bit is
clear); and whenever the float bit is clear, every stored sample is the
little-endian int16 at `header + 2k` scaled by `1/32768`. -/
theorem c3_wt_header_flags_and_int16 (data : List Nat) (path : String)
    (h12 : 12 ≤ data.length) (hm : le32 data 0 = 0x77617673) :
    (16 ≤ data.length →
      parse_surge_wt_header data =
        some ⟨le32 data 4, le32 data 8, (le32 data 12).testBit 2, 16⟩) ∧
    (data.length < 16 →
      parse_surge_wt_header data =
        some ⟨le32 data 4, le32 data 8, false, 12⟩) ∧
    (∀ wt, parse_surge_wt data path = some wt →
      (((if 16 ≤ data.length then le32 data 12 else 0).testBit 2 = true →
          wt.bit_depth = 32) ∧
       ((if 16 ≤ data.length then le32 data 12 else 0).testBit 2 = false →
          wt.bit_depth = 16 ∧
          ∀ k, k < wt.frame_size * wt.frame_count →
            wt.samples.getD k 0 =
              (i16_of
                (byteD data ((if 16 ≤ data.length then 16 else 12) + 2 * k))
                (byteD data ((if 16 ≤ data.length then 16 else 12) + 2 * k + 1))
                : ℚ) / 32768))) := by
  refine ⟨?_, ?_, ?_⟩
  · intro h16
    simp only [parse_surge_wt_header]
    rw [if_neg (by omega), if_neg (by simp [hm]), if_pos h16, if_pos h16,
      land4_testBit]
  · intro h16
    simp only [parse_surge_wt_header]
    rw [if_neg (by omega), if_neg (by simp [hm]), if_neg (by omega),
      if_neg (by omega)]
    simp
  · intro wt hwt
    simp only [parse_surge_wt, Option.map_eq_some'] at hwt
    obtain ⟨sd, hsd, rfl⟩ := hwt
    constructor
    · intro hbit
      have hf : (if 16 ≤ data.length then le32 data 12 else 0) &&& 4 ≠ 0 :=
        (land4_ne_iff _).mpr hbit
      have := surgeWtDecode_float data sd hsd hf
      simp only [surgeWtRecord]
      exact this
    · intro hbit
      have hnf : ¬((if 16 ≤ data.length then le32 data 12 else 0) &&& 4 ≠ 0) := by
        intro hcon
        rw [(land4_ne_iff _).mp hcon] at hbit
        exact Bool.noConfusion hbit
      obtain ⟨hd16, hsamp, hlen⟩ := surgeWtDecode_int16 data sd hsd hnf
      refine ⟨by simp only [surgeWtRecord]; exact hd16, ?_⟩
      intro k hk
      simp only [surgeWtRecord] at hk ⊢
      rw [hsamp]
      have hk' : k < (unpack_i16le (pySlice data
          (if 16 ≤ data.length then 16 else 12)
          (le32 data 4 * le32 data 8 * 2))).length := by
        rw [length_unpack_i16le, pySlice_length data _ _ (by omega)]
        omega
      rw [getD_map_of_lt _ _ k hk' _ 0]
      congr 1
      rw [unpack_i16le_getD _ k (by
        rw [pySlice_length data _ _ (by omega)]
        omega)]
      rw [pySlice_getD data _ _ _ (by omega),
        pySlice_getD data _ _ _ (by omega)]
      rw [show (if 16 ≤ data.length then 16 else 12) + (2 * k + 1) =
        (if 16 ≤ data.length then 16 else 12) + 2 * k + 1 by omega]

/-- An 18-byte `.wt` buffer (flags present and 0, one int16 sample 0x8000 =
−1.0): the C3 witness input. -/
def c3bytes : List Nat :=
  [115, 118, 97, 119, 1, 0, 0, 0, 1, 0, 0, 0, 0, 0, 0, 0, 0, 128]

/-- Witness for C3 at the concrete buffer above: header 16 with flags 0,
int16 decode path, sample 0 equals −32768/32768. -/
theorem c3_wt_header_flags_and_int16_witness :
    parse_surge_wt_header c3bytes = some ⟨1, 1, false, 16⟩ ∧
    ∃ wt, parse_surge_wt c3bytes "p" = some wt ∧ wt.bit_depth = 16 ∧
      wt.samples.getD 0 0 = -1 := by
  obtain ⟨ha, -, hc⟩ :=
    c3_wt_header_flags_and_int16 c3bytes "p" (by decide) (by decide)
  refine ⟨by simpa using ha (by decide), ?_⟩
  refine ⟨_, rfl, ?_, ?_⟩
  · exact ((hc _ rfl).2 (by decide)).1
  · have := ((hc _ rfl).2 (by decide)).2 0 (by decide)
    rw [this]
    norm_num [c3bytes, byteD, i16_of]

/-! ## Payload-length lemmas (C2 support) -/

theorem vitalConcatSamples_length : ∀ (fs : List (List Nat)) (all : List ℚ),
    vitalConcatSamples fs = some all →
    all.length = (fs.map (fun f => f.length / 4)).sum
  | [], all, h => by
    simp only [vitalConcatSamples, Option.some.injEq] at h
    subst h
    simp
  | f :: rest, all, h => by
    simp only [vitalConcatSamples] at h
    by_cases hf : f.length % 4 = 0
    · rw [if_pos hf] at h
      cases hrest : vitalConcatSamples rest with
      | none => rw [hrest] at h; exact Option.noConfusion h
      | some tl =>
        rw [hrest] at h
        simp only [Option.map_some', Option.some.injEq] at h
        subst h
        have ih := vitalConcatSamples_length rest tl hrest
        simp [List.length_append, length_unpack_f32le, ih]
    · rw [if_neg hf] at h
      exact Option.noConfusion h

/-- **C2 (amended).** Payload length per wavetable parser: the
proprietary-binary parser always satisfies `len(payload) = frame_count ×
frame_size`; the WAV parser stores `min(frame_count × frame_size, n)` where
`n` is the decoded sample count, so the invariant fails exactly when fewer
samples were decoded than `frame_count × frame_size` (in particular when
the decoded count is smaller than the inferred frame size); the
compressed-JSON parser stores the total sample count over all keyframe
blocks with `frame_size` fixed at 2048, so the invariant holds only when
the blocks average 2048 samples. -/
theorem c2_payload_length_amended :
    (∀ (data : List Nat) (path : String) (wt : WavetableData),
      parse_surge_wt data path = some wt →
      wt.samples.length = wt.frame_count * wt.frame_size) ∧
    (∀ (data : List Nat) (path : String) (wt : WavetableData),
      parse_surge_wav data path = some wt →
      ∃ sr bits total dec, wavDecoded data = some (sr, bits, total, dec) ∧
        wt.frame_size = wavFrameSize total ∧
        wt.frame_count = max 1 (total / wavFrameSize total) ∧
        wt.samples.length = min (wt.frame_count * wt.frame_size) dec.length) ∧
    (∀ (data : List Nat) (name path category : String) (j : VitalWtJson)
      (wt : WavetableData),
      parse_vital_wavetable data name path category j = some wt →
      wt.frame_size = 2048 ∧ wt.frame_count = (vitalFrames j).length ∧
      wt.samples.length =
        ((vitalFrames j).map (fun f => f.length / 4)).sum) := by
  refine ⟨?_, ?_, ?_⟩
  · intro data path wt h
    simp only [parse_surge_wt, Option.map_eq_some'] at h
    obtain ⟨sd, hsd, rfl⟩ := h
    have := surgeWtDecode_length data sd hsd
    simp only [surgeWtRecord]
    rw [this, Nat.mul_comm]
  · intro data path wt h
    simp only [parse_surge_wav] at h
    cases hw : wavDecoded data with
    | none => rw [hw] at h; exact Option.noConfusion h
    | some q =>
      obtain ⟨sr, bits, total, dec⟩ := q
      rw [hw] at h
      simp only [Option.some.injEq] at h
      subst h
      exact ⟨sr, bits, total, dec, rfl, rfl, rfl, by
        simp [List.length_take, Nat.min_def]⟩
  · intro data name path category j wt h
    simp only [parse_vital_wavetable] at h
    by_cases hg : j.groups.isEmpty
    · rw [if_pos hg] at h
      exact Option.noConfusion h
    rw [if_neg hg] at h
    by_cases hf : (vitalFrames j).isEmpty
    · rw [if_pos hf] at h
      exact Option.noConfusion h
    rw [if_neg hf] at h
    cases hcs : vitalConcatSamples (vitalFrames j) with
    | none => rw [hcs] at h; exact Option.noConfusion h
    | some all =>
      rw [hcs] at h
      simp only [Option.some.injEq] at h
      subst h
      exact ⟨rfl, rfl, vitalConcatSamples_length _ all hcs⟩

/-- A 46-byte WAV (PCM, mono, 16-bit, one sample): decoded count 1 is
smaller than every canonical frame size, so the inferred geometry is 1
frame × 2048 while the payload holds a single sample. -/
def c2wavBytes : List Nat :=
  [82, 73, 70, 70, 38, 0, 0, 0, 87, 65, 86, 69,
   102, 109, 116, 32, 16, 0, 0, 0,
   1, 0, 1, 0, 68, 172, 0, 0, 136, 88, 1, 0, 2, 0, 16, 0,
   100, 97, 116, 97, 2, 0, 0, 0, 0, 128]

/-- A decoded Vital wavetable document with one keyframe whose sample block
holds a single float32 sample (4 bytes, base64 `AAAAAA==`). -/
def c2vitalJson : VitalWtJson :=
  { groups := [{ components := [{ keyframes := [{ wave_data := some "AAAAAA==" }] }] }] }

/-- Counterexample to C2 as stated: both a WAV input with fewer decoded
samples than the inferred frame size and a compressed-JSON input with a
non-2048-sample keyframe block produce assets whose payload length differs
from `frame_count × frame_size`. -/
theorem c2_payload_length_counterexample :
    (∃ wt, parse_surge_wav c2wavBytes "p" = some wt ∧
      wt.samples.length ≠ wt.frame_count * wt.frame_size) ∧
    (∃ wt, parse_vital_wavetable [1, 2, 3] "n" "p" "c" c2vitalJson = some wt ∧
      wt.samples.length ≠ wt.frame_count * wt.frame_size) :=
  ⟨⟨_, rfl, by decide⟩, ⟨_, rfl, by decide⟩⟩

/-- Witness for the amended C2 at a concrete `.wt` input (the first clause,
whose statement carries a hypothesis). -/
theorem c2_payload_length_amended_witness :
    ∃ wt, parse_surge_wt c3bytes "pp" = some wt ∧
      wt.samples.length = wt.frame_count * wt.frame_size :=
  ⟨_, rfl, c2_payload_length_amended.1 c3bytes "pp" _ rfl⟩

/-! ## Stored-hash lemmas (C1 support) -/

theorem parse_surge_preset_xml_hash (xml path pname : String) (pr : PresetData)
    (h : parse_surge_preset_xml xml path pname = some pr) :
    pr.sha256 = sha256hex (utf8Bytes (pyStrip xml)) ∧
    pr.file_size = (pyStrip xml).length := by
  simp only [parse_surge_preset_xml] at h
  by_cases hs : (pyStartsWith (pyStrip xml) "<?xml" = true ∨
      pyStartsWith (pyStrip xml) "<patch" = true)
  case neg =>
    rw [if_pos hs] at h
    exact Option.noConfusion h
  rw [if_neg (not_not_intro hs)] at h
  simp only [Option.bind_eq_some, Option.map_eq_some'] at h
  obtain ⟨root, -, L, -, rfl⟩ := h
  exact ⟨rfl, rfl⟩

theorem parse_surge_fxp_hash (data : List Nat) (path : String) (pr : PresetData)
    (h : parse_surge_fxp data path = some pr) :
    ∃ cs xb, be32? data 56 = some cs ∧
      fxp_extract_xml (pySlice data 60 cs) = some xb ∧
      pr.sha256 = sha256hex (utf8Bytes (pyStrip (pyDecodeLossy xb))) ∧
      pr.file_size = (pyStrip (pyDecodeLossy xb)).length := by
  simp only [parse_surge_fxp] at h
  by_cases h1 : data.length < 60
  · rw [if_pos h1] at h
    exact Option.noConfusion h
  rw [if_neg h1] at h
  by_cases h2 : pySlice data 0 4 ≠ [67, 99, 110, 75]
  · rw [if_pos h2] at h
    exact Option.noConfusion h
  rw [if_neg h2] at h
  by_cases h3 : pySlice data 8 4 ≠ [70, 120, 67, 107] ∧
      pySlice data 8 4 ≠ [70, 80, 67, 104]
  · rw [if_pos h3] at h
    exact Option.noConfusion h
  rw [if_neg h3] at h
  by_cases h4 : pySlice data 8 4 = [70, 80, 67, 104]
  · rw [if_pos h4] at h
    cases hcs : be32? data 56 with
    | none => rw [hcs] at h; dsimp only at h; exact Option.noConfusion h
    | some cs =>
      rw [hcs] at h
      dsimp only at h
      cases hxb : fxp_extract_xml (pySlice data 60 cs) with
      | none => rw [hxb] at h; dsimp only at h; exact Option.noConfusion h
      | some xb =>
        rw [hxb] at h
        dsimp only at h
        exact ⟨cs, xb, rfl, hxb,
          (parse_surge_preset_xml_hash _ _ _ _ h).1,
          (parse_surge_preset_xml_hash _ _ _ _ h).2⟩
  · rw [if_neg h4] at h
    exact Option.noConfusion h

/-- **C1 (amended).** The stored content hash and file size are the SHA-256
digest and length of the raw input byte payload for the proprietary-binary,
WAV and compressed-JSON wavetable parsers and for the compressed-JSON
preset parser; for presets parsed from the binary-chunk (FXP) container
they are instead computed from the extracted, stripped XML text (digest of
its UTF-8 bytes, size its character count). -/
theorem c1_content_hash_amended :
    (∀ (data : List Nat) (path : String) (wt : WavetableData),
      parse_surge_wt data path = some wt →
      wt.sha256 = sha256hex data ∧ wt.file_size = data.length) ∧
    (∀ (data : List Nat) (path : String) (wt : WavetableData),
      parse_surge_wav data path = some wt →
      wt.sha256 = sha256hex data ∧ wt.file_size = data.length) ∧
    (∀ (data : List Nat) (name path category : String) (third : Bool)
      (contributor : Option String) (wt : WavetableData),
      parse_surge_wavetable data name path category third contributor =
        some wt →
      wt.sha256 = sha256hex data ∧ wt.file_size = data.length) ∧
    (∀ (data : List Nat) (name path category : String) (j : VitalWtJson)
      (wt : WavetableData),
      parse_vital_wavetable data name path category j = some wt →
      wt.sha256 = sha256hex data ∧ wt.file_size = data.length) ∧
    (∀ (data : List Nat) (path : String) (j : VitalPresetJson)
      (pr : PresetData),
      parse_vital_preset data path j = some pr →
      pr.sha256 = sha256hex data ∧ pr.file_size = data.length) ∧
    (∀ (data : List Nat) (path : String) (pr : PresetData),
      parse_surge_fxp data path = some pr →
      ∃ cs xb, be32? data 56 = some cs ∧
        fxp_extract_xml (pySlice data 60 cs) = some xb ∧
        pr.sha256 = sha256hex (utf8Bytes (pyStrip (pyDecodeLossy xb))) ∧
        pr.file_size = (pyStrip (pyDecodeLossy xb)).length) := by
  refine ⟨?_, ?_, ?_, ?_, ?_, ?_⟩
  · intro data path wt h
    simp only [parse_surge_wt, Option.map_eq_some'] at h
    obtain ⟨sd, -, rfl⟩ := h
    exact ⟨rfl, rfl⟩
  · intro data path wt h
    simp only [parse_surge_wav] at h
    cases hw : wavDecoded data with
    | none => rw [hw] at h; exact Option.noConfusion h
    | some q =>
      obtain ⟨sr, bits, total, dec⟩ := q
      rw [hw] at h
      simp only [Option.some.injEq] at h
      subst h
      exact ⟨rfl, rfl⟩
  · intro data name path category third contributor wt h
    simp only [parse_surge_wavetable, Option.bind_eq_some,
      Option.map_eq_some'] at h
    obtain ⟨hd, -, sd, -, rfl⟩ := h
    exact ⟨rfl, rfl⟩
  · intro data name path category j wt h
    simp only [parse_vital_wavetable] at h
    by_cases hg : j.groups.isEmpty
    · rw [if_pos hg] at h
      exact Option.noConfusion h
    rw [if_neg hg] at h
    by_cases hf : (vitalFrames j).isEmpty
    · rw [if_pos hf] at h
      exact Option.noConfusion h
    rw [if_neg hf] at h
    cases hcs : vitalConcatSamples (vitalFrames j) with
    | none => rw [hcs] at h; exact Option.noConfusion h
    | some all =>
      rw [hcs] at h
      simp only [Option.some.injEq] at h
      subst h
      exact ⟨rfl, rfl⟩
  · intro data path j pr h
    simp only [parse_vital_preset, Option.some.injEq] at h
    subst h
    exact ⟨rfl, rfl⟩
  · intro data path pr h
    exact parse_surge_fxp_hash data path pr h

/-- A 68-byte FXP container (`CcnK`/`FPCh`, name `Test`, 8-byte chunk
holding exactly `<patch/>`): the C1 counterexample input. -/
def c1fxpBytes : List Nat :=
  [67, 99, 110, 75, 0, 0, 0, 0, 70, 80, 67, 104, 0, 0, 0, 0,
   0, 0, 0, 0, 0, 0, 0, 0, 0, 0, 0, 0,
   84, 101, 115, 116, 0, 0, 0, 0, 0, 0, 0, 0, 0, 0, 0, 0,
   0, 0, 0, 0, 0, 0, 0, 0, 0, 0, 0, 0,
   0, 0, 0, 8,
   60, 112, 97, 116, 99, 104, 47, 62]

set_option maxRecDepth 40000 in
/-- Counterexample to C1 as stated: this FXP preset parses successfully but
its stored file size is the 8-character XML length, not the 68-byte raw
length, and its stored hash is the digest of the XML text, not of the raw
payload. -/
theorem c1_content_hash_counterexample :
    (parse_surge_fxp c1fxpBytes "p").isSome = true ∧
    (parse_surge_fxp c1fxpBytes "p").map (fun pr => pr.file_size) ≠
      some c1fxpBytes.length ∧
    (parse_surge_fxp c1fxpBytes "p").map (fun pr => pr.sha256) ≠
      some (sha256hex c1fxpBytes) :=
  ⟨by decide, by decide, by decide⟩

/-- Witness for the amended C1 at a concrete `.wt` input. -/
theorem c1_content_hash_amended_witness :
    ∃ wt, parse_surge_wt c9bytesA "w" = some wt ∧
      wt.sha256 = sha256hex c9bytesA ∧ wt.file_size = c9bytesA.length :=
  ⟨_, rfl, c1_content_hash_amended.1 c9bytesA "w" _ rfl⟩

/-! ## C5: first-maximum category selection -/

/-- Unfolding `pymax` on a cons cell. -/
lemma pymax_cons (f : String → Nat) (acc c : String) (cs : List String) :
    pymax f acc (c :: cs) = pymax f (if f acc < f c then c else acc) cs := rfl

/-- `pymax` returns its seed or an element of the list. -/
lemma pymax_mem (f : String → Nat) :
    ∀ (cs : List String) (acc : String),
      pymax f acc cs = acc ∨ pymax f acc cs ∈ cs := by
  intro cs
  induction cs with
  | nil => intro acc; exact Or.inl rfl
  | cons c cs ih =>
    intro acc
    rw [pymax_cons]
    by_cases h : f acc < f c
    · rw [if_pos h]
      rcases ih c with h' | h'
      · exact Or.inr (by rw [h']; exact List.mem_cons_self c cs)
      · exact Or.inr (List.mem_cons_of_mem c h')
    · rw [if_neg h]
      rcases ih acc with h' | h'
      · exact Or.inl h'
      · exact Or.inr (List.mem_cons_of_mem c h')

/-- `pymax` computes the first element attaining the maximum: if index `j`
of `acc :: cs` dominates every index weakly and every earlier index
strictly, the fold returns the element at `j`. -/
lemma pymax_getD (f : String → Nat) :
    ∀ (cs : List String) (acc : String) (j : Nat),
      j < (acc :: cs).length →
      (∀ i, i < (acc :: cs).length →
        f ((acc :: cs).getD i "") ≤ f ((acc :: cs).getD j "")) →
      (∀ i, i < j → f ((acc :: cs).getD i "") < f ((acc :: cs).getD j "")) →
      pymax f acc cs = (acc :: cs).getD j "" := by
  intro cs
  induction cs with
  | nil =>
    intro acc j hj _ _
    have hj0 : j = 0 := by
      simp only [List.length_cons, List.length_nil] at hj
      omega
    subst hj0
    rfl
  | cons c cs ih =>
    intro acc j hj hmax hstrict
    rw [pymax_cons]
    by_cases h : f acc < f c
    · rw [if_pos h]
      cases j with
      | zero =>
        exact absurd (hmax 1 (by simp)) (not_le.mpr h)
      | succ k =>
        refine ih c k ?_ ?_ ?_
        · simp only [List.length_cons] at hj ⊢
          omega
        · intro i hi
          simp only [List.length_cons] at hi
          exact hmax (i + 1) (by simp only [List.length_cons]; omega)
        · intro i hi
          exact hstrict (i + 1) (by omega)
    · rw [if_neg h]
      cases j with
      | zero =>
        refine ih acc 0 ?_ ?_ ?_
        · simp
        · intro i hi
          cases i with
          | zero => exact le_refl _
          | succ m =>
            simp only [List.length_cons] at hi
            exact hmax (m + 2) (by simp only [List.length_cons]; omega)
        · intro i hi
          exact absurd hi (Nat.not_lt_zero i)
      | succ k =>
        cases k with
        | zero =>
          exact absurd (hstrict 0 (by omega)) h
        | succ m =>
          refine ih acc (m + 1) ?_ ?_ ?_
          · simp only [List.length_cons] at hj ⊢
            omega
          · intro i hi
            cases i with
            | zero => exact hmax 0 (by simp)
            | succ n =>
              simp only [List.length_cons] at hi
              exact hmax (n + 2) (by simp only [List.length_cons]; omega)
          · intro i hi
            cases i with
            | zero => exact hstrict 0 (by omega)
            | succ n => exact hstrict (n + 2) (by omega)

/-- The chosen category, unfolded: the first maximum of the score over
`CATEGORIES` in order, demoted to `other` when its score is zero. -/
lemma classify_fst (name oc : String) (oscs : List OscillatorData)
    (envs : List EnvelopeData) :
    (classify_preset name oc oscs envs).1 =
      (if catScore (searchText name oc) oscs envs
          (pymax (catScore (searchText name oc) oscs envs)
            (CATEGORIES.headD "other") CATEGORIES.tail) = 0 then "other"
       else pymax (catScore (searchText name oc) oscs envs)
          (CATEGORIES.headD "other") CATEGORIES.tail) := rfl

/-- `pymax_getD` specialised to the `CATEGORIES` enumeration. -/
lemma pymax_cats (sc : String → Nat) (j : Nat)
    (hj : j < CATEGORIES.length)
    (hmax : ∀ i, i < CATEGORIES.length →
      sc (CATEGORIES.getD i "") ≤ sc (CATEGORIES.getD j ""))
    (hstrict : ∀ i, i < j →
      sc (CATEGORIES.getD i "") < sc (CATEGORIES.getD j "")) :
    pymax sc (CATEGORIES.headD "other") CATEGORIES.tail =
      CATEGORIES.getD j "" :=
  pymax_getD sc CATEGORIES.tail (CATEGORIES.headD "other") j hj hmax hstrict

/-- **C5.** The category with the strictly highest aggregate score is
assigned; on ties at the maximum nonzero score the winner is the first of
them in the fixed `CATEGORIES` enumeration order (bass, lead, pad, pluck,
keys, brass, strings, vocal, fx, drum, arp, ambient, other); and when every
category scores zero the assigned category is `other`. -/
theorem c5_first_max_category :
    (∀ (name oc : String) (oscs : List OscillatorData)
        (envs : List EnvelopeData),
      (∀ c ∈ CATEGORIES, catScore (searchText name oc) oscs envs c = 0) →
      (classify_preset name oc oscs envs).1 = "other") ∧
    (∀ (name oc : String) (oscs : List OscillatorData)
        (envs : List EnvelopeData) (j : Nat),
      j < CATEGORIES.length →
      0 < catScore (searchText name oc) oscs envs (CATEGORIES.getD j "") →
      (∀ i, i < CATEGORIES.length →
        catScore (searchText name oc) oscs envs (CATEGORIES.getD i "") ≤
          catScore (searchText name oc) oscs envs (CATEGORIES.getD j "")) →
      (∀ i, i < j →
        catScore (searchText name oc) oscs envs (CATEGORIES.getD i "") <
          catScore (searchText name oc) oscs envs (CATEGORIES.getD j "")) →
      (classify_preset name oc oscs envs).1 = CATEGORIES.getD j "") := by
  constructor
  · intro name oc oscs envs hz
    rw [classify_fst]
    have hb : pymax (catScore (searchText name oc) oscs envs)
        (CATEGORIES.headD "other") CATEGORIES.tail ∈ CATEGORIES := by
      rcases pymax_mem (catScore (searchText name oc) oscs envs)
          CATEGORIES.tail (CATEGORIES.headD "other") with h | h
      · rw [h]; decide
      · exact List.mem_of_mem_tail h
    rw [if_pos (hz _ hb)]
  · intro name oc oscs envs j hj h0 hmax hstrict
    rw [classify_fst,
      pymax_cats (catScore (searchText name oc) oscs envs) j hj hmax hstrict]
    rw [if_neg (Nat.pos_iff_ne_zero.mp h0)]

/-- Witness for C5: the all-zero clause at an empty preset, and the
first-maximum clause at "solo drift", whose lead/pad tie (score 2 each)
resolves to `lead`, the earlier category. -/
theorem c5_first_max_category_witness :
    ((∀ c ∈ CATEGORIES, catScore (searchText "" "") [] [] c = 0) ∧
      (classify_preset "" "" [] []).1 = "other") ∧
    (1 < CATEGORIES.length ∧
      0 < catScore (searchText "solo drift" "") [] [] (CATEGORIES.getD 1 "") ∧
      (∀ i, i < CATEGORIES.length →
        catScore (searchText "solo drift" "") [] [] (CATEGORIES.getD i "") ≤
          catScore (searchText "solo drift" "") [] [] (CATEGORIES.getD 1 "")) ∧
      (∀ i, i < 1 →
        catScore (searchText "solo drift" "") [] [] (CATEGORIES.getD i "") <
          catScore (searchText "solo drift" "") [] [] (CATEGORIES.getD 1 "")) ∧
      (classify_preset "solo drift" "" [] []).1 = CATEGORIES.getD 1 "") :=
  ⟨⟨by decide, c5_first_max_category.1 "" "" [] [] (by decide)⟩,
   ⟨by decide, by decide, by decide, by decide,
    c5_first_max_category.2 "solo drift" "" [] [] 1 (by decide) (by decide)
      (by decide) (by decide)⟩⟩

/-! ## C6: the "Deep Sub Bass" example -/

/-- Counterexample to C6 as stated: the bass keyword score of
"Deep Sub Bass" is not 4, and the number of matching bass patterns is not
2 (the patterns `bass`, `sub` and `deep` all match). -/
theorem c6_deep_sub_bass_counterexample :
    kwScore (searchText "Deep Sub Bass" "") "bass" ≠ 4 ∧
    (CATEGORY_KEYWORDS.find? (fun p => p.1 = "bass")).map
        (fun p => p.2.countP
          (fun pat => re_word_search pat (searchText "Deep Sub Bass" ""))) ≠
      some 2 := by decide

/-- **C6 (amended).** A preset named "Deep Sub Bass" with empty original
category and no structured hints classifies as `bass`; the bass score is 6,
arising from exactly three matching keyword patterns (`bass`, `sub`,
`deep`), and that score is the unique maximum: every other category scores
strictly less. -/
theorem c6_deep_sub_bass_amended :
    (classify_preset "Deep Sub Bass" "" [] []).1 = "bass" ∧
    catScore (searchText "Deep Sub Bass" "") [] [] "bass" = 6 ∧
    (CATEGORY_KEYWORDS.find? (fun p => p.1 = "bass")).map
        (fun p => p.2.countP
          (fun pat => re_word_search pat (searchText "Deep Sub Bass" ""))) =
      some 3 ∧
    (∀ c ∈ CATEGORIES, c ≠ "bass" →
      catScore (searchText "Deep Sub Bass" "") [] [] c < 6) := by decide

/-! ## C7: the pluck envelope heuristic -/

/-- **C7.** A preset with no keyword matches, no oscillator hints and a
single amp envelope (named `amp` or `env_1`) with attack 0.005, decay 0.1,
sustain 0.1, release 0.1 classifies as `pluck`: the pluck score is at least
2 and strictly higher than every other category's score. -/
theorem c7_pluck_envelope (name oc : String) (e : EnvelopeData)
    (hkw : ∀ c ∈ CATEGORIES, kwScore (searchText name oc) c = 0)
    (hname : e.name = "amp" ∨ e.name = "env_1")
    (ha : e.attack = 1/200) (hd : e.decay = 1/10)
    (hs : e.sustain = 1/10) (hr : e.release = 1/10) :
    (classify_preset name oc [] [e]).1 = "pluck" ∧
    2 ≤ catScore (searchText name oc) [] [e] "pluck" ∧
    (∀ c ∈ CATEGORIES, c ≠ "pluck" →
      catScore (searchText name oc) [] [e] c <
        catScore (searchText name oc) [] [e] "pluck") := by
  have henvB : ∀ c, envBonus e c = if c = "pluck" then 2 else 0 := by
    intro c
    simp only [envBonus, ha, hd, hs, hr]
    norm_num
  have hpred : (decide (e.name = "amp") || decide (e.name = "env_1")) =
      true := by
    rcases hname with h | h <;> simp [h]
  have hscore : ∀ c ∈ CATEGORIES, catScore (searchText name oc) [] [e] c =
      if c = "pluck" then 2 else 0 := by
    intro c hc
    have h1 : envBonusAll [e] c = envBonus e c := by
      simp [envBonusAll, hpred]
    have h2 : oscBonusAll [] c = 0 := rfl
    simp only [catScore, hkw c hc, h1, h2, henvB c, Nat.zero_add,
      Nat.add_zero]
  have h3 : catScore (searchText name oc) [] [e] (CATEGORIES.getD 3 "") =
      2 := by
    rw [hscore _ (by decide)]
    decide
  refine ⟨?_, ?_, ?_⟩
  · have hp : pymax (catScore (searchText name oc) [] [e])
        (CATEGORIES.headD "other") CATEGORIES.tail = CATEGORIES.getD 3 "" := by
      refine pymax_cats _ 3 (by decide) ?_ ?_
      · intro i hi
        rw [h3]
        have hi13 : i < 13 := hi
        interval_cases i <;> rw [hscore _ (by decide)] <;> decide
      · intro i hi
        rw [h3]
        interval_cases i <;> rw [hscore _ (by decide)] <;> decide
    rw [classify_fst, hp, h3, if_neg (by decide : ¬(2 = 0))]
    decide
  · rw [hscore _ (by decide)]
    decide
  · intro c hc hne
    rw [hscore c hc, hscore "pluck" (by decide), if_neg hne, if_pos rfl]
    decide

/-- Witness for C7: a nameless preset with one concrete amp envelope. -/
theorem c7_pluck_envelope_witness :
    (∀ c ∈ CATEGORIES, kwScore (searchText "" "") c = 0) ∧
    (classify_preset "" "" []
      [{ name := "amp", attack := 1/200, decay := 1/10, sustain := 1/10,
         release := 1/10 }]).1 = "pluck" :=
  ⟨by decide,
   (c7_pluck_envelope "" ""
     { name := "amp", attack := 1/200, decay := 1/10, sustain := 1/10,
       release := 1/10 }
     (by decide) (Or.inl rfl) rfl rfl rfl rfl).1⟩

/-! ## C8: subcategory defaulting and override -/

/-- Unfolding the inner subcategory scan on nil. -/
lemma pickInner_nil (text best sub1 sub : String) :
    pickInner text best sub1 [] sub = sub := rfl

/-- Unfolding the inner subcategory scan on a cons cell. -/
lemma pickInner_cons (text best sub1 pat : String) (pats : List String)
    (sub : String) :
    pickInner text best sub1 (pat :: pats) sub =
      pickInner text best sub1 pats
        (if subKwHit text best sub1 pat then sub1 else sub) := rfl

/-- The inner scan leaves the accumulator unchanged when no pattern hits. -/
lemma pickInner_default (text best sub1 : String) :
    ∀ (pats : List String) (sub : String),
      (∀ pat ∈ pats, subKwHit text best sub1 pat = false) →
      pickInner text best sub1 pats sub = sub := by
  intro pats
  induction pats with
  | nil => intro sub _; rfl
  | cons pat pats ih =>
    intro sub hno
    have hf := hno pat (List.mem_cons_self pat pats)
    rw [pickInner_cons, if_neg (by simp [hf])]
    exact ih sub (fun p hp => hno p (List.mem_cons_of_mem pat hp))

/-- The inner scan either leaves the accumulator unchanged or returns its
subcategory, the latter only on a hit. -/
lemma pickInner_cases (text best sub1 : String) :
    ∀ (pats : List String) (sub : String),
      pickInner text best sub1 pats sub = sub ∨
      (pickInner text best sub1 pats sub = sub1 ∧
        ∃ pat ∈ pats, subKwHit text best sub1 pat = true) := by
  intro pats
  induction pats with
  | nil => intro sub; exact Or.inl rfl
  | cons pat pats ih =>
    intro sub
    rw [pickInner_cons]
    by_cases h : subKwHit text best sub1 pat = true
    · rw [if_pos h]
      rcases ih sub1 with h' | ⟨h', -⟩
      · exact Or.inr ⟨h', pat, List.mem_cons_self pat pats, h⟩
      · exact Or.inr ⟨h', pat, List.mem_cons_self pat pats, h⟩
    · rw [if_neg h]
      rcases ih sub with h' | ⟨h', pat', hp', hh⟩
      · exact Or.inl h'
      · exact Or.inr ⟨h', pat', List.mem_cons_of_mem pat hp', hh⟩

/-- Unfolding the outer subcategory scan on nil. -/
lemma pickGo_nil (text best sub : String) :
    pickGo text best [] sub = sub := rfl

/-- Unfolding the outer subcategory scan on a cons cell. -/
lemma pickGo_cons (text best : String) (p : String × List String)
    (l : List (String × List String)) (sub : String) :
    pickGo text best (p :: l) sub =
      pickGo text best l (pickInner text best p.1 p.2 sub) := rfl

/-- The outer scan keeps the default when no entry has a hit. -/
lemma pickGo_default (text best : String) :
    ∀ (l : List (String × List String)) (sub : String),
      (∀ p ∈ l, ∀ pat ∈ p.2, subKwHit text best p.1 pat = false) →
      pickGo text best l sub = sub := by
  intro l
  induction l with
  | nil => intro sub _; rfl
  | cons p l ih =>
    intro sub hno
    rw [pickGo_cons,
      pickInner_default text best p.1 p.2 sub (hno p (List.mem_cons_self p l))]
    exact ih sub (fun q hq => hno q (List.mem_cons_of_mem p hq))

/-- The outer scan either keeps the default or returns the subcategory of
some entry with a hit. -/
lemma pickGo_cases (text best : String) :
    ∀ (l : List (String × List String)) (sub : String),
      pickGo text best l sub = sub ∨
      ∃ p ∈ l, (∃ pat ∈ p.2, subKwHit text best p.1 pat = true) ∧
        pickGo text best l sub = p.1 := by
  intro l
  induction l with
  | nil => intro sub; exact Or.inl rfl
  | cons p l ih =>
    intro sub
    rw [pickGo_cons]
    rcases ih (pickInner text best p.1 p.2 sub) with h | ⟨p', hp', hpat, heq⟩
    · rcases pickInner_cases text best p.1 p.2 sub with hi | ⟨hi, hpat⟩
      · exact Or.inl (by rw [h, hi])
      · exact Or.inr ⟨p, List.mem_cons_self p l, hpat, by rw [h, hi]⟩
    · exact Or.inr ⟨p', List.mem_cons_of_mem p hp', hpat, heq⟩

/-- The override condition, unfolded: the pattern matches the search text
and the subcategory is registered under the chosen category. -/
lemma subKwHit_iff (text best sub1 pat : String) :
    subKwHit text best sub1 pat = true ↔
      re_word_search pat text = true ∧
        ∃ q ∈ SUBCATEGORIES, sub1 ∈ q.2 ∧ q.1 = best := by
  simp [subKwHit, List.any_eq_true, Bool.and_eq_true]

/-- Counterexample to C8 as stated: the all-zero preset is classified as
`other` with subcategory `generic`, not `generic-other`. -/
theorem c8_subcategory_counterexample :
    (classify_preset "" "" [] []).1 = "other" ∧
    (classify_preset "" "" [] []).2 = "generic" ∧
    (classify_preset "" "" [] []).2 ≠
      "generic-" ++ (classify_preset "" "" [] []).1 := by decide

/-- **C8 (amended).** The subcategory defaults to `generic-<category>` for
the chosen category — except that the default for category `other` is
`generic`, with no category suffix — and is overridden only when a
subcategory keyword pattern matches the search text and that subcategory is
registered under the already-chosen category: without such a hit the
default is kept, and any override names a subcategory with a matching
pattern that is registered under the chosen category. -/
theorem c8_subcategory_amended :
    (∀ (name oc : String) (oscs : List OscillatorData)
        (envs : List EnvelopeData),
      (classify_preset name oc oscs envs).2 =
        pickSubcategory (searchText name oc)
          (classify_preset name oc oscs envs).1
          (if (classify_preset name oc oscs envs).1 ≠ "other"
           then "generic-" ++ (classify_preset name oc oscs envs).1
           else "generic")) ∧
    (∀ text best dflt : String,
      (∀ p ∈ SUBCATEGORY_KEYWORDS, ∀ pat ∈ p.2,
        subKwHit text best p.1 pat = false) →
      pickSubcategory text best dflt = dflt) ∧
    (∀ text best dflt : String,
      pickSubcategory text best dflt = dflt ∨
      ∃ p ∈ SUBCATEGORY_KEYWORDS,
        (∃ pat ∈ p.2, re_word_search pat text = true) ∧
        (∃ q ∈ SUBCATEGORIES, p.1 ∈ q.2 ∧ q.1 = best) ∧
        pickSubcategory text best dflt = p.1) := by
  refine ⟨?_, ?_, ?_⟩
  · intro name oc oscs envs
    rfl
  · intro text best dflt hno
    exact pickGo_default text best SUBCATEGORY_KEYWORDS dflt hno
  · intro text best dflt
    rcases pickGo_cases text best SUBCATEGORY_KEYWORDS dflt with
      h | ⟨p, hp, ⟨pat, hpat, hhit⟩, heq⟩
    · exact Or.inl h
    · rcases (subKwHit_iff text best p.1 pat).mp hhit with ⟨hre, hq⟩
      exact Or.inr ⟨p, hp, ⟨pat, hpat, hre⟩, hq, heq⟩

/-- Witness for the amended C8: with an empty search text nothing matches,
so the `other` default `generic` is kept. -/
theorem c8_subcategory_amended_witness :
    (∀ p ∈ SUBCATEGORY_KEYWORDS, ∀ pat ∈ p.2,
      subKwHit "" "other" p.1 pat = false) ∧
    pickSubcategory "" "other" "generic" = "generic" :=
  ⟨by decide, c8_subcategory_amended.2.1 "" "other" "generic" (by decide)⟩

/-! ## C10: Vital oscillator and filter slot emission -/

/-- **C10.** In the compressed-JSON preset parser, oscillator slot `i`
produces a spec if and only if the key `osc_<i>_on` is present in the
settings map and its value is nonzero (a present-but-disabled oscillator
emits nothing), whereas filter slot `i` produces a spec whenever the key
`filter_<i>_on` is present, even when its value is 0: the value is read
into `filt_on` but never used. -/
theorem c10_slot_emission :
    (∀ (settings : List (String × ℚ))
        (wavetables : List (String × VWtEntry)),
      parse_vital_oscillators settings wavetables =
        ([1, 2, 3] : List Nat).flatMap (vitalOscSlot settings wavetables)) ∧
    (∀ (settings : List (String × ℚ))
        (wavetables : List (String × VWtEntry)) (i : Nat),
      vitalOscSlot settings wavetables i ≠ [] ↔
        ∃ v, sGet settings ("osc_" ++ toString i ++ "_" ++ "on") = some v ∧
          v ≠ 0) ∧
    (∀ settings : List (String × ℚ),
      parse_vital_filters settings =
        ([1, 2] : List Nat).flatMap (vitalFilterSlot settings)) ∧
    (∀ (settings : List (String × ℚ)) (i : Nat),
      vitalFilterSlot settings i ≠ [] ↔
        (sGet settings ("filter_" ++ toString i ++ "_" ++ "on")).isSome =
          true) := by
  refine ⟨fun _ _ => rfl, ?_, fun _ => rfl, ?_⟩
  · intro settings wavetables i
    simp only [vitalOscSlot]
    cases hv : sGet settings ("osc_" ++ toString i ++ "_" ++ "on") with
    | none =>
      dsimp only
      simp
    | some v =>
      dsimp only
      by_cases h0 : (v : ℚ) ≠ 0
      · rw [if_pos h0]
        simp [h0]
      · rw [if_neg h0]
        push_neg at h0
        simp [h0]
  · intro settings i
    simp only [vitalFilterSlot]
    by_cases h :
        (sGet settings ("filter_" ++ toString i ++ "_" ++ "on")).isSome = true
    · rw [if_pos h]
      simp [h]
    · rw [if_neg h]
      simp [h]
